import Mathlib

/-!
Verification of the adherence reconciliation engine of the
etls-smart-pill-integration-script repository (a WisePill device-registry to
DHIS2 tracker integration, written in TypeScript).

The embedding is shallow: each TypeScript function relevant to the claims is
translated into an executable Lean definition.  Dates and date-times, which the
TypeScript code keeps as strings and manipulates through luxon
(`DateTime.fromISO` / `DateTime.fromSQL` / `toFormat("yyyy-MM-dd")` / `toISO`),
are modelled by a calendar `Date` structure and a `DT` (date + seconds of day)
structure together with small parsers and formatters for the exact textual
forms the program exchanges ("yyyy-MM-dd", "yyyy-MM-ddTHH:mm:ss",
"yyyy-MM-dd HH:mm:ss").  A luxon invalid datetime is modelled by `Option.none`:
luxon comparisons against an invalid datetime are always false, and
`toFormat` on an invalid datetime yields the string "Invalid DateTime".

Strings are Lean `String`; `undefined`/absent JavaScript values are `Option`;
JavaScript truthiness of a string-or-undefined value (`undefined`, `null` and
`""` are falsy) is the `truthy` predicate below.

The repository contains several historical snapshots of the same evolving
script.  Where two snapshots of a function disagree, both are embedded and the
suffix names the snapshot: `V1` refers to the snapshot in
`src/services/integration.service.ts` / `src/routes/wise-pill-api.routes.ts`,
`V2` to the more complete snapshot (`unnamed/part_009` integration service,
`unnamed/part_006` routes, `src/helpers/wise-pill-api.helpers.ts` helpers).
-/

namespace SmartPill

/-! ## Decimal digit formatting and parsing

Infrastructure for the fixed-width decimal fields of the date formats the
program uses ("yyyy", "MM", "dd", "HH", "mm", "ss"). -/

/-- The decimal digit character for `n % 10`-style values (`0 ≤ n ≤ 9`). -/
def digitChar (n : Nat) : Char := Char.ofNat (48 + n)

/-- Fixed-width decimal numeral with leading zeros: `padNum w n` is the
`w`-character decimal form of `n` (meaningful when `n < 10 ^ w`). -/
def padNum : Nat → Nat → List Char
  | 0, _ => []
  | w + 1, n => digitChar (n / 10 ^ w) :: padNum w (n % 10 ^ w)

/-- Numeric value of a decimal digit character. -/
def digitVal (c : Char) : Nat := c.toNat - 48

/-- Read an exactly-`w`-character all-digit numeral; `none` otherwise. -/
def readFixed (cs : List Char) (w : Nat) : Option Nat :=
  if cs.length = w ∧ cs.all Char.isDigit then
    some (cs.foldl (fun a c => a * 10 + digitVal c) 0)
  else none

theorem digitChar_isDigit {n : Nat} (h : n < 10) : (digitChar n).isDigit = true := by
  interval_cases n <;> decide

theorem digitVal_digitChar {n : Nat} (h : n < 10) : digitVal (digitChar n) = n := by
  interval_cases n <;> decide

theorem padNum_length (w n : Nat) : (padNum w n).length = w := by
  induction w generalizing n with
  | zero => rfl
  | succ w ih => simp [padNum, ih]

theorem padNum_all_digits {w n : Nat} (h : n < 10 ^ w) :
    (padNum w n).all Char.isDigit = true := by
  induction w generalizing n with
  | zero => rfl
  | succ w ih =>
    have hdiv : n / 10 ^ w < 10 := by
      apply Nat.div_lt_of_lt_mul
      calc n < 10 ^ (w + 1) := h
        _ = 10 ^ w * 10 := by ring
    have hmod : n % 10 ^ w < 10 ^ w :=
      Nat.mod_lt _ (Nat.pos_pow_of_pos w (by norm_num))
    simp [padNum, List.all_cons, digitChar_isDigit hdiv, ih hmod]

theorem padNum_foldl {w n : Nat} (a : Nat) (h : n < 10 ^ w) :
    (padNum w n).foldl (fun a c => a * 10 + digitVal c) a = a * 10 ^ w + n := by
  induction w generalizing n a with
  | zero =>
    interval_cases n
    simp [padNum]
  | succ w ih =>
    have hdiv : n / 10 ^ w < 10 := by
      apply Nat.div_lt_of_lt_mul
      calc n < 10 ^ (w + 1) := h
        _ = 10 ^ w * 10 := by ring
    have hmod : n % 10 ^ w < 10 ^ w :=
      Nat.mod_lt _ (Nat.pos_pow_of_pos w (by norm_num))
    have hsplit : (n / 10 ^ w) * 10 ^ w + n % 10 ^ w = n := by
      rw [Nat.mul_comm]
      exact Nat.div_add_mod n (10 ^ w)
    calc (padNum (w + 1) n).foldl (fun a c => a * 10 + digitVal c) a
        = (padNum w (n % 10 ^ w)).foldl (fun a c => a * 10 + digitVal c)
            (a * 10 + digitVal (digitChar (n / 10 ^ w))) := rfl
      _ = (a * 10 + digitVal (digitChar (n / 10 ^ w))) * 10 ^ w + n % 10 ^ w := ih _ hmod
      _ = (a * 10 + n / 10 ^ w) * 10 ^ w + n % 10 ^ w := by rw [digitVal_digitChar hdiv]
      _ = a * 10 ^ (w + 1) + ((n / 10 ^ w) * 10 ^ w + n % 10 ^ w) := by ring
      _ = a * 10 ^ (w + 1) + n := by rw [hsplit]

theorem readFixed_padNum {w n : Nat} (h : n < 10 ^ w) :
    readFixed (padNum w n) w = some n := by
  unfold readFixed
  rw [if_pos ⟨padNum_length w n, padNum_all_digits h⟩]
  rw [padNum_foldl 0 h]
  simp

theorem digitChar_ne {n : Nat} (h : n < 10) (c : Char) (hc : 57 < c.toNat ∨ c.toNat < 48) :
    digitChar n ≠ c := by
  intro heq
  have htn : (digitChar n).toNat = 48 + n := by
    interval_cases n <;> decide
  rw [heq] at htn
  omega

/-! ## Splitting a character list at a separator -/

/-- Split a character list at every occurrence of `sep` (the separator is
dropped; `n` separators yield `n + 1` segments). -/
def splitSep (sep : Char) : List Char → List (List Char)
  | [] => [[]]
  | c :: cs =>
    if c = sep then [] :: splitSep sep cs
    else
      match splitSep sep cs with
      | [] => [[c]]
      | h :: t => (c :: h) :: t

theorem splitSep_ne_nil (sep : Char) (cs : List Char) : splitSep sep cs ≠ [] := by
  cases cs with
  | nil => simp [splitSep]
  | cons c cs =>
    by_cases h : c = sep <;> simp only [splitSep, h, if_true, if_false, reduceIte]
    · simp
    · cases splitSep sep cs <;> simp

theorem splitSep_no_sep {sep : Char} {cs : List Char} (h : ∀ c ∈ cs, c ≠ sep) :
    splitSep sep cs = [cs] := by
  induction cs with
  | nil => rfl
  | cons c cs ih =>
    have hc : c ≠ sep := h c (by simp)
    have hrest : ∀ x ∈ cs, x ≠ sep := fun x hx => h x (by simp [hx])
    simp only [splitSep, hc, reduceIte, ih hrest]

theorem splitSep_append {sep : Char} {xs : List Char} (ys : List Char)
    (h : ∀ c ∈ xs, c ≠ sep) :
    splitSep sep (xs ++ sep :: ys) = xs :: splitSep sep ys := by
  induction xs with
  | nil => simp [splitSep]
  | cons c cs ih =>
    have hc : c ≠ sep := h c (by simp)
    have hrest : ∀ x ∈ cs, x ≠ sep := fun x hx => h x (by simp [hx])
    have h2 := ih hrest
    simp only [List.cons_append, splitSep, hc, reduceIte]
    rw [show cs.append (sep :: ys) = cs ++ sep :: ys from rfl, h2]

/-! ## Calendar dates and date-times

Model of the date values the program manipulates through luxon.  `Date` is a
proleptic-Gregorian calendar date; `Date.toDays`/`Date.ofDays` convert to and
from a linear day count (Howard Hinnant's civil-calendar algorithm, the one
underlying most date libraries), giving day arithmetic and ordering. -/

structure Date where
  year : Nat
  month : Nat
  day : Nat
deriving DecidableEq, Repr

def isLeapYear (y : Nat) : Bool :=
  y % 4 = 0 && (y % 100 != 0 || y % 400 = 0)

def daysInMonth (y m : Nat) : Nat :=
  if m = 1 ∨ m = 3 ∨ m = 5 ∨ m = 7 ∨ m = 8 ∨ m = 10 ∨ m = 12 then 31
  else if m = 4 ∨ m = 6 ∨ m = 9 ∨ m = 11 then 30
  else if isLeapYear y then 29
  else 28

/-- The dates accepted by the parsers below: month and day in calendar range,
year in the four-digit range the "yyyy" field carries. -/
def Date.valid (d : Date) : Prop :=
  1 ≤ d.month ∧ d.month ≤ 12 ∧ 1 ≤ d.day ∧ d.day ≤ daysInMonth d.year d.month ∧
    d.year < 10000

instance (d : Date) : Decidable d.valid := by
  unfold Date.valid
  infer_instance

/-- Linear day number of a calendar date (days since 1970-01-01). -/
def Date.toDays (dt : Date) : Int :=
  let y : Int := if dt.month ≤ 2 then (dt.year : Int) - 1 else (dt.year : Int)
  let m : Int := dt.month
  let d : Int := dt.day
  let era : Int := (if 0 ≤ y then y else y - 399).ediv 400
  let yoe : Int := y - era * 400
  let doy : Int := (153 * (if 2 < m then m - 3 else m + 9) + 2).ediv 5 + d - 1
  let doe : Int := yoe * 365 + yoe.ediv 4 - yoe.ediv 100 + doy
  era * 146097 + doe - 719468

/-- Calendar date of a linear day number (inverse of `Date.toDays`). -/
def Date.ofDays (z0 : Int) : Date :=
  let z : Int := z0 + 719468
  let era : Int := (if 0 ≤ z then z else z - 146096).ediv 146097
  let doe : Int := z - era * 146097
  let yoe : Int := (doe - doe.ediv 1460 + doe.ediv 36524 - doe.ediv 146096).ediv 365
  let y : Int := yoe + era * 400
  let doy : Int := doe - (365 * yoe + yoe.ediv 4 - yoe.ediv 100)
  let mp : Int := (5 * doy + 2).ediv 153
  let d : Int := doy - (153 * mp + 2).ediv 5 + 1
  let m : Int := if mp < 10 then mp + 3 else mp - 9
  let y' : Int := if m ≤ 2 then y + 1 else y
  ⟨y'.toNat, m.toNat, d.toNat⟩

/-- A date-time: calendar date plus seconds of day.  Plays the role of a valid
luxon `DateTime`; an invalid luxon `DateTime` is `(none : Option DT)`. -/
structure DT where
  date : Date
  secs : Nat
deriving DecidableEq, Repr

/-- Instant on the linear time scale, in seconds (zone effects ignored: the
program runs everything in one system zone). -/
def DT.instSecs (t : DT) : Int := t.date.toDays * 86400 + t.secs

def Date.addDays (d : Date) (n : Int) : Date := Date.ofDays (d.toDays + n)

/-- luxon `.minus({ days: n })`: shifts the calendar date, keeps the time. -/
def DT.minusDays (t : DT) (n : Nat) : DT := ⟨t.date.addDays (-(n : Int)), t.secs⟩

/-- luxon `.plus({ days: n })`. -/
def DT.plusDays (t : DT) (n : Nat) : DT := ⟨t.date.addDays (n : Int), t.secs⟩

/-! ### Formatting -/

/-- `toFormat("yyyy-MM-dd")` on a valid datetime's date. -/
def Date.fmtChars (d : Date) : List Char :=
  padNum 4 d.year ++ '-' :: (padNum 2 d.month ++ '-' :: padNum 2 d.day)

def Date.fmtYMD (d : Date) : String := ⟨d.fmtChars⟩

def fmtTimeChars (s : Nat) : List Char :=
  padNum 2 (s / 3600) ++ ':' :: (padNum 2 (s % 3600 / 60) ++ ':' :: padNum 2 (s % 60))

/-- luxon `toISO()` (milliseconds and zone offset omitted from the model; the
program only ever reads back the date and time-of-day fields). -/
def DT.toISO (t : DT) : String := ⟨t.date.fmtChars ++ 'T' :: fmtTimeChars t.secs⟩

/-! ### Parsing -/

def parseDateChars (cs : List Char) : Option Date :=
  match splitSep '-' cs with
  | [a, b, c] =>
    match readFixed a 4, readFixed b 2, readFixed c 2 with
    | some y, some m, some d =>
      if 1 ≤ m ∧ m ≤ 12 ∧ 1 ≤ d ∧ d ≤ daysInMonth y m then some ⟨y, m, d⟩ else none
    | _, _, _ => none
  | _ => none

def parseTimeChars (cs : List Char) : Option Nat :=
  match splitSep ':' cs with
  | [a, b, c] =>
    match readFixed a 2, readFixed b 2, readFixed c 2 with
    | some hh, some mm, some ss =>
      if hh < 24 ∧ mm < 60 ∧ ss < 60 then some (hh * 3600 + mm * 60 + ss) else none
    | _, _, _ => none
  | _ => none

/-- Date-time parser for a given date/time separator: accepts `yyyy-MM-dd` and
`yyyy-MM-dd<sep>HH:mm:ss`. -/
def parseDTWith (sep : Char) (s : String) : Option DT :=
  match splitSep sep s.data with
  | [d] => (parseDateChars d).map fun dd => ⟨dd, 0⟩
  | [d, t] =>
    match parseDateChars d, parseTimeChars t with
    | some dd, some tt => some ⟨dd, tt⟩
    | _, _ => none
  | _ => none

/-- luxon `DateTime.fromISO` on the textual forms the program exchanges
(`T`-separated). -/
def fromISO (s : String) : Option DT := parseDTWith 'T' s

/-- luxon `DateTime.fromSQL` (space-separated). -/
def fromSQL (s : String) : Option DT := parseDTWith ' ' s

/-- `DateTime.fromISO(s).toFormat("yyyy-MM-dd")`: luxon renders an invalid
datetime as the string "Invalid DateTime". -/
def isoToYMD (s : String) : String :=
  match fromISO s with
  | some t => t.date.fmtYMD
  | none => "Invalid DateTime"

/-- Strict `>` on two `DateTime.fromISO` results; luxon comparisons involving
an invalid datetime are false. -/
def isoGt (a b : String) : Bool :=
  match fromISO a, fromISO b with
  | some x, some y => y.instSecs < x.instSecs
  | _, _ => false

/-- Non-strict `≤` between two luxon datetimes (false if either is invalid). -/
def optLe (a b : Option DT) : Bool :=
  match a, b with
  | some x, some y => x.instSecs ≤ y.instSecs
  | _, _ => false

/-! ### Parse/format round trips -/

theorem ne_of_isDigit {c x : Char} (hc : c.isDigit = true) (hx : x.isDigit = false) :
    c ≠ x := by
  intro h
  rw [h, hx] at hc
  exact Bool.noConfusion hc

theorem padNum_ne_sep {w n : Nat} (h : n < 10 ^ w) {x : Char} (hx : x.isDigit = false) :
    ∀ c ∈ padNum w n, c ≠ x := by
  intro c hc
  have hall := padNum_all_digits h
  rw [List.all_eq_true] at hall
  exact ne_of_isDigit (hall c hc) hx

/-- Splitting a formatted date at '-' recovers the three numeral segments. -/
theorem splitSep_fmtChars (d : Date) (hv : d.valid) :
    splitSep '-' d.fmtChars = [padNum 4 d.year, padNum 2 d.month, padNum 2 d.day] := by
  obtain ⟨hm1, hm2, hd1, hd2, hy⟩ := hv
  have hmlt : d.month < 10 ^ 2 := by norm_num; omega
  have hdlt : d.day < 10 ^ 2 := by
    have : daysInMonth d.year d.month ≤ 31 := by
      unfold daysInMonth
      split
      · omega
      · split
        · omega
        · split <;> omega
    norm_num
    omega
  have hylt : d.year < 10 ^ 4 := by norm_num; omega
  unfold Date.fmtChars
  rw [splitSep_append _ (padNum_ne_sep hylt (by decide))]
  rw [splitSep_append _ (padNum_ne_sep hmlt (by decide))]
  rw [splitSep_no_sep (padNum_ne_sep hdlt (by decide))]

theorem parseDateChars_fmtChars (d : Date) (hv : d.valid) :
    parseDateChars d.fmtChars = some d := by
  obtain ⟨hm1, hm2, hd1, hd2, hy⟩ := hv
  have hmlt : d.month < 10 ^ 2 := by norm_num; omega
  have hdlt : d.day < 10 ^ 2 := by
    have : daysInMonth d.year d.month ≤ 31 := by
      unfold daysInMonth
      split
      · omega
      · split
        · omega
        · split <;> omega
    norm_num
    omega
  have hylt : d.year < 10 ^ 4 := by norm_num; omega
  unfold parseDateChars
  rw [splitSep_fmtChars d ⟨hm1, hm2, hd1, hd2, hy⟩]
  dsimp only
  rw [readFixed_padNum hylt, readFixed_padNum hmlt, readFixed_padNum hdlt]
  dsimp only
  rw [if_pos ⟨hm1, hm2, hd1, hd2⟩]

theorem digitVal_le_of_isDigit {c : Char} (h : c.isDigit = true) : digitVal c ≤ 9 := by
  unfold Char.isDigit at h
  rw [Bool.and_eq_true] at h
  obtain ⟨h1, h2⟩ := h
  rw [decide_eq_true_eq] at h1 h2
  have e2 : c.val ≤ ('9' : Char).val := h2
  rw [UInt32.le_def] at e2
  have e3 : c.toNat ≤ 57 := e2
  unfold digitVal
  omega

theorem foldl_digit_lt {cs : List Char} (h : cs.all Char.isDigit = true) (a : Nat) :
    cs.foldl (fun a c => a * 10 + digitVal c) a < (a + 1) * 10 ^ cs.length := by
  induction cs generalizing a with
  | nil => simp
  | cons c cs ih =>
    rw [List.all_cons, Bool.and_eq_true] at h
    have hv : digitVal c ≤ 9 := digitVal_le_of_isDigit h.1
    have := ih h.2 (a * 10 + digitVal c)
    calc (c :: cs).foldl (fun a c => a * 10 + digitVal c) a
        = cs.foldl (fun a c => a * 10 + digitVal c) (a * 10 + digitVal c) := rfl
      _ < (a * 10 + digitVal c + 1) * 10 ^ cs.length := this
      _ ≤ (a + 1) * 10 ^ (c :: cs).length := by
          rw [List.length_cons, pow_succ]
          have hfac : a * 10 + digitVal c + 1 ≤ (a + 1) * 10 := by omega
          calc (a * 10 + digitVal c + 1) * 10 ^ cs.length
              ≤ (a + 1) * 10 * 10 ^ cs.length := Nat.mul_le_mul_right _ hfac
            _ = (a + 1) * (10 ^ cs.length * 10) := by ring

theorem readFixed_lt {cs : List Char} {w n : Nat} (h : readFixed cs w = some n) :
    n < 10 ^ w := by
  unfold readFixed at h
  split at h
  · rename_i hg
    simp only [Option.some.injEq] at h
    subst h
    have := foldl_digit_lt hg.2 0
    rw [hg.1] at this
    simpa using this
  · exact absurd h (by simp)

theorem parseDateChars_valid {cs : List Char} {d : Date}
    (h : parseDateChars cs = some d) : d.valid := by
  unfold parseDateChars at h
  split at h
  · split at h
    · split at h
      · rename_i y m dd _ _ _ hcond
        simp only [Option.some.injEq] at h
        subst h
        refine ⟨hcond.1, hcond.2.1, hcond.2.2.1, hcond.2.2.2, ?_⟩
        rename_i a b c _ hy _ _
        have := readFixed_lt hy
        norm_num at this
        exact this
      · exact absurd h (by simp)
    · exact absurd h (by simp)
  · exact absurd h (by simp)

/-- A round trip through the date/time separator split: the formatted date
contains no separator character, so `yyyy-MM-dd` parses back as a bare date. -/
theorem parseDTWith_fmtYMD (sep : Char) (hsep : sep.isDigit = false)
    (hdash : sep ≠ '-') (d : Date) (hv : d.valid) :
    parseDTWith sep d.fmtYMD = some ⟨d, 0⟩ := by
  obtain ⟨hm1, hm2, hd1, hd2, hy⟩ := hv
  have hmlt : d.month < 10 ^ 2 := by norm_num; omega
  have hdlt : d.day < 10 ^ 2 := by
    have : daysInMonth d.year d.month ≤ 31 := by
      unfold daysInMonth
      split
      · omega
      · split
        · omega
        · split <;> omega
    norm_num
    omega
  have hylt : d.year < 10 ^ 4 := by norm_num; omega
  have hnosep : ∀ c ∈ d.fmtChars, c ≠ sep := by
    unfold Date.fmtChars
    intro c hc
    rw [List.mem_append] at hc
    rcases hc with hc | hc
    · exact padNum_ne_sep hylt hsep c hc
    · rw [List.mem_cons] at hc
      rcases hc with hc | hc
      · rw [hc]; exact fun h => hdash h.symm
      · rw [List.mem_append] at hc
        rcases hc with hc | hc
        · exact padNum_ne_sep hmlt hsep c hc
        · rw [List.mem_cons] at hc
          rcases hc with hc | hc
          · rw [hc]; exact fun h => hdash h.symm
          · exact padNum_ne_sep hdlt hsep c hc
  unfold parseDTWith
  show (match splitSep sep d.fmtChars with
    | [d] => (parseDateChars d).map fun dd => (⟨dd, 0⟩ : DT)
    | [d, t] =>
      match parseDateChars d, parseTimeChars t with
      | some dd, some tt => some ⟨dd, tt⟩
      | _, _ => none
    | _ => none) = some ⟨d, 0⟩
  rw [splitSep_no_sep hnosep]
  dsimp only
  rw [parseDateChars_fmtChars d ⟨hm1, hm2, hd1, hd2, hy⟩]
  rfl

/-! ## Adherence codec (`src/helpers/wise-pill-api.helpers.ts`)

`binaryToDecimal` / `decimalToBinary` convert between the seven-character
day-of-week mask ("SMTWTFS", e.g. "1111111") and its integer form. -/

/-- Loop body of `binaryToDecimal`: walks the reversed character array with
index `i`, adding `2 ^ i` for `'1'`, skipping `'0'`, and returning `-1` as
soon as any other character appears. -/
def binaryToDecimalAux : List Char → Nat → Int → Int
  | [], _, acc => acc
  | c :: rest, i, acc =>
    if c = '1' then binaryToDecimalAux rest (i + 1) (acc + 2 ^ i)
    else if c = '0' then binaryToDecimalAux rest (i + 1) acc
    else -1

/-- `binaryToDecimal(binaryString)`: `binaryString.split("").reverse()` then
the indexed accumulation loop. -/
def binaryToDecimal (binaryString : String) : Int :=
  binaryToDecimalAux binaryString.data.reverse 0 0

/-- Loop body of `decimalToBinary`: exponents 6 down to 0, greedy subtraction. -/
def decimalToBinaryGo : List Nat → Int → String → String
  | [], _, acc => acc
  | i :: rest, v, acc =>
    if 2 ^ i ≤ v then decimalToBinaryGo rest (v - 2 ^ i) (acc ++ "1")
    else decimalToBinaryGo rest v (acc ++ "0")

/-- `decimalToBinary(decimalValue)`: range check to [0,127], then the
greedy seven-bit expansion. -/
def decimalToBinary (decimalValue : Int) : String :=
  if decimalValue < 0 ∨ 127 < decimalValue then "Invalid input"
  else decimalToBinaryGo [6, 5, 4, 3, 2, 1, 0] decimalValue ""

/-- Reference value of a binary mask string as the spec describes it: bit 0 is
the rightmost character, each `'1'` at (right-based) position `i`
contributes `2 ^ i`. -/
def specMaskValueAux : List Char → Nat → Nat
  | [], _ => 0
  | c :: rest, i => (if c = '1' then 2 ^ i else 0) + specMaskValueAux rest (i + 1)

def specMaskValue (s : String) : Nat := specMaskValueAux s.data.reverse 0

theorem binaryToDecimalAux_invalid {l : List Char} (i : Nat) (acc : Int)
    (h : ∃ c ∈ l, c ≠ '0' ∧ c ≠ '1') : binaryToDecimalAux l i acc = -1 := by
  induction l generalizing i acc with
  | nil => simp at h
  | cons c rest ih =>
    obtain ⟨x, hx, hx0, hx1⟩ := h
    by_cases h1 : c = '1'
    · have hrest : ∃ y ∈ rest, y ≠ '0' ∧ y ≠ '1' := by
        rcases List.mem_cons.mp hx with rfl | hmem
        · exact absurd h1 hx1
        · exact ⟨x, hmem, hx0, hx1⟩
      simp only [binaryToDecimalAux, h1, reduceIte]
      exact ih _ _ hrest
    · by_cases h0 : c = '0'
      · have hrest : ∃ y ∈ rest, y ≠ '0' ∧ y ≠ '1' := by
          rcases List.mem_cons.mp hx with rfl | hmem
          · exact absurd h0 hx0
          · exact ⟨x, hmem, hx0, hx1⟩
        simp only [binaryToDecimalAux, h1, h0, reduceIte]
        exact ih _ _ hrest
      · simp only [binaryToDecimalAux, h1, h0, reduceIte]

theorem binaryToDecimalAux_valid {l : List Char} (i : Nat) (acc : Int)
    (h : ∀ c ∈ l, c = '0' ∨ c = '1') :
    binaryToDecimalAux l i acc = acc + specMaskValueAux l i := by
  induction l generalizing i acc with
  | nil => simp [binaryToDecimalAux, specMaskValueAux]
  | cons c rest ih =>
    have hrest : ∀ x ∈ rest, x = '0' ∨ x = '1' := fun x hx => h x (by simp [hx])
    rcases h c (by simp) with rfl | rfl
    · simp only [binaryToDecimalAux, specMaskValueAux, reduceIte, ih _ _ hrest]
      push_cast
      ring
    · simp only [binaryToDecimalAux, specMaskValueAux, reduceIte, ih _ _ hrest]
      push_cast
      ring

/-- C8: for every integer `n` in `[0,127]`, converting to the
seven-character day mask and back is the identity:
`binaryToDecimal (decimalToBinary n) = n`. -/
theorem claim_C8_mask_roundtrip (n : Int) (h0 : 0 ≤ n) (h127 : n ≤ 127) :
    binaryToDecimal (decimalToBinary n) = n := by
  have hfin : ∀ k : Fin 128,
      binaryToDecimal (decimalToBinary ((k : Nat) : Int)) = ((k : Nat) : Int) := by decide
  lift n to Nat using h0 with k
  have hk : k < 128 := by
    have : (k : Int) < 128 := by omega
    exact_mod_cast this
  exact hfin ⟨k, hk⟩

theorem claim_C8_mask_roundtrip_witness :
    (0 : Int) ≤ 85 ∧ (85 : Int) ≤ 127 ∧ binaryToDecimal (decimalToBinary 85) = 85 :=
  ⟨by decide, by decide, claim_C8_mask_roundtrip 85 (by decide) (by decide)⟩

/-- C9: `binaryToDecimal` returns the `-1` InvalidFormat sentinel — which lies
outside the valid day-mask range `[0,127]` — for every input containing a
character other than `'0'`/`'1'`, and on all-binary inputs returns the
non-negative mask value with bit 0 at the rightmost character. -/
theorem claim_C9_invalid_sentinel (s : String) :
    ((∃ c ∈ s.data, c ≠ '0' ∧ c ≠ '1') →
      binaryToDecimal s = -1 ∧
        ¬(0 ≤ binaryToDecimal s ∧ binaryToDecimal s ≤ 127)) ∧
    ((∀ c ∈ s.data, c = '0' ∨ c = '1') →
      binaryToDecimal s = (specMaskValue s : Int) ∧ 0 ≤ binaryToDecimal s) := by
  constructor
  · intro h
    have hrev : ∃ c ∈ s.data.reverse, c ≠ '0' ∧ c ≠ '1' := by
      obtain ⟨c, hc, h01⟩ := h
      exact ⟨c, List.mem_reverse.mpr hc, h01⟩
    have := binaryToDecimalAux_invalid (l := s.data.reverse) 0 0 hrev
    unfold binaryToDecimal
    rw [this]
    exact ⟨rfl, by omega⟩
  · intro h
    have hrev : ∀ c ∈ s.data.reverse, c = '0' ∨ c = '1' := fun c hc =>
      h c (List.mem_reverse.mp hc)
    have := binaryToDecimalAux_valid (l := s.data.reverse) 0 0 hrev
    unfold binaryToDecimal specMaskValue
    rw [this]
    refine ⟨by ring, ?_⟩
    positivity

theorem claim_C9_invalid_sentinel_witness :
    ((∃ c ∈ ("10a" : String).data, c ≠ '0' ∧ c ≠ '1') ∧
      binaryToDecimal "10a" = -1 ∧
        ¬(0 ≤ binaryToDecimal "10a" ∧ binaryToDecimal "10a" ≤ 127)) ∧
    ((∀ c ∈ ("101" : String).data, c = '0' ∨ c = '1') ∧
      binaryToDecimal "101" = (specMaskValue "101" : Int) ∧
        0 ≤ binaryToDecimal "101") :=
  ⟨⟨by decide, (claim_C9_invalid_sentinel "10a").1 (by decide)⟩,
    ⟨by decide, (claim_C9_invalid_sentinel "101").2 (by decide)⟩⟩

/-! ## Shared helper functions and constants
(`src/constants/index.ts`, `src/helpers/wise-pill-api.helpers.ts`) -/

def DEVICE_HEALTH_DATA_ELEMENT : String := "QH0OjHcBBpO"
def BATTERY_HEALTH_DATA_ELEMENT : String := "Vc6c6OjvvHO"
def DOSAGE_TIME_DATA_ELEMENT : String := "FOHv6pUjBjv"
def DEVICE_SIGNAL_DATA_ELEMENT : String := "oHBM5fsFc6p"

def DEVICE_LINKED : String := "Device Linked to Episode"
def DEVICE_AVAILABLE : String := "Device available"
def DAMAGED_OR_LOST : String := "Device lost or damaged"
def DEVICE_UNAVAILABLE : String := "Device is unavailable"

def NONE_RECEIVED : String := "None"
def RECEIVED_ONCE : String := "Once"
def RECEIVED_MULTIPLE : String := "Multiple"
def HEARTBEAT_RECEIVED : String := "Heartbeat"

/-- JavaScript truthiness of a string-or-undefined value: `undefined`, `null`
and `""` are falsy, every other string truthy. -/
def truthy : Option String → Bool
  | none => false
  | some s => s ≠ ""

/-- `sanitizeAdherenceCode`: the four known single-character device codes map
to signal names; anything else degrades to `NONE_RECEIVED`. -/
def sanitizeAdherenceCode (code : String) : String :=
  if code = "0" then NONE_RECEIVED
  else if code = "1" then RECEIVED_ONCE
  else if code = "2" then RECEIVED_MULTIPLE
  else if code = "9" then HEARTBEAT_RECEIVED
  else NONE_RECEIVED

/-- `getDeviceStatus`: `parseInt` of the raw status then the 1/2/3/9 table,
empty string for anything else.  The model's `parseIntOpt` covers the
plain decimal numerals the registry sends. -/
def parseIntOpt (s : String) : Option Int :=
  if s.data ≠ [] ∧ s.data.all Char.isDigit then
    some (s.data.foldl (fun a c => a * 10 + (digitVal c : Int)) 0)
  else none

def getDeviceStatus (status : Option String) : String :=
  match (status.getD "").toInt? <|> parseIntOpt (status.getD "") with
  | some n =>
    if n = 1 then DEVICE_LINKED
    else if n = 2 then DEVICE_AVAILABLE
    else if n = 3 then DAMAGED_OR_LOST
    else if n = 9 then DEVICE_UNAVAILABLE
    else ""
  | none => ""

/-- `getDeviceBatteryLevel`: the template literal `` `${batteryLevel}` ``;
an absent value stringifies to "undefined". -/
def getDeviceBatteryLevel (batteryLevel : Option String) : String :=
  match batteryLevel with
  | some s => s
  | none => "undefined"

/-- `sanitizeDatesIntoDateTime` / `sanitizeWisePillDateToDateTimeObjects`:
`date.replace(/ /g, "T")`. -/
def sanitizeDatesIntoDateTime (date : String) : String :=
  ⟨date.data.map fun c => if c = ' ' then 'T' else c⟩

/-- One dated adherence code (`AdherenceMapping` in `src/types`). -/
structure AdherenceMapping where
  date : String
  adherence : String
deriving DecidableEq, Repr

/-- A DHIS2 data value.  `value` is `Option` because the merge in
`getDHIS2EventPayload` can store an `undefined` dosage-time value. -/
structure DHIS2DataValue where
  dataElement : String
  value : Option String
deriving DecidableEq, Repr

/-- `generateDataValuesFromAdherenceMapping`: dosage-time and device-signal
values always; battery and device-health values only when the optional
arguments are truthy. -/
def generateDataValuesFromAdherenceMapping (m : AdherenceMapping)
    (batteryLevel deviceStatus : Option String) : List DHIS2DataValue :=
  [⟨DOSAGE_TIME_DATA_ELEMENT, some (sanitizeDatesIntoDateTime m.date)⟩,
   ⟨DEVICE_SIGNAL_DATA_ELEMENT, some (sanitizeAdherenceCode m.adherence)⟩] ++
  (if truthy batteryLevel then [⟨BATTERY_HEALTH_DATA_ELEMENT, batteryLevel⟩] else []) ++
  (if truthy deviceStatus then [⟨DEVICE_HEALTH_DATA_ELEMENT, deviceStatus⟩] else [])

/-! ## `getSanitizedAdherence` (helpers snapshot, lines 89–107)

`adherenceStrings.reverse()` mutates the caller's array in place and the loop
walks the reversed content, pairing it with dates counted backwards from the
`end` anchor.  The in-place mutation is modelled by returning, next to the
result list, the content of the caller's array after the call. -/

/-- Models the non-null assertion `endDate.minus(...).toISO()!`: on an invalid
anchor luxon's `toISO()` is `null`, which downstream date parsing treats as
invalid. -/
def isoBang : Option DT → String
  | some t => t.toISO
  | none => "null"

/-- The loop of `getSanitizedAdherence`: `daysToRollback` counts up from 0. -/
def getSanitizedAdherenceAux (endDate : Option DT) :
    List String → Nat → List AdherenceMapping
  | [], _ => []
  | adherence :: rest, daysToRollback =>
    ⟨isoBang (endDate.map (·.minusDays daysToRollback)), adherence⟩ ::
      getSanitizedAdherenceAux endDate rest (daysToRollback + 1)

/-- `getSanitizedAdherence(adherenceStrings, end)`.  First component: the
returned `episodeAdherence` list; second component: the content of the
caller's `adherenceStrings` array after the call (mutated by `.reverse()`). -/
def getSanitizedAdherence (adherenceStrings : List String) (endStr : String) :
    List AdherenceMapping × List String :=
  let reversed := adherenceStrings.reverse
  (getSanitizedAdherenceAux (fromSQL endStr) reversed 0, reversed)

theorem getSanitizedAdherenceAux_map_adherence (d : Option DT) (l : List String)
    (k : Nat) :
    (getSanitizedAdherenceAux d l k).map AdherenceMapping.adherence = l := by
  induction l generalizing k with
  | nil => rfl
  | cons a rest ih => simp [getSanitizedAdherenceAux, ih]

/-- The date column of the result depends only on the length of the code
list. -/
def rollbackDates (d : Option DT) : Nat → Nat → List String
  | _, 0 => []
  | k, n + 1 => isoBang (d.map (·.minusDays k)) :: rollbackDates d (k + 1) n

theorem getSanitizedAdherenceAux_map_date (d : Option DT) (l : List String)
    (k : Nat) :
    (getSanitizedAdherenceAux d l k).map AdherenceMapping.date =
      rollbackDates d k l.length := by
  induction l generalizing k with
  | nil => rfl
  | cons a rest ih => simp [getSanitizedAdherenceAux, rollbackDates, ih]

/-- C10: `getSanitizedAdherence` reverses its first argument in place
(`Array.prototype.reverse` mutates the caller's array), so a second call on
the same array object pairs the same dates with the codes in the opposite
order. -/
theorem claim_C10_reverse_in_place (l : List String) (endStr : String) :
    (getSanitizedAdherence l endStr).2 = l.reverse ∧
    ((getSanitizedAdherence (getSanitizedAdherence l endStr).2 endStr).1.map
        AdherenceMapping.adherence) =
      ((getSanitizedAdherence l endStr).1.map AdherenceMapping.adherence).reverse ∧
    ((getSanitizedAdherence (getSanitizedAdherence l endStr).2 endStr).1.map
        AdherenceMapping.date) =
      ((getSanitizedAdherence l endStr).1.map AdherenceMapping.date) := by
  refine ⟨rfl, ?_, ?_⟩
  · show (getSanitizedAdherenceAux (fromSQL endStr) l.reverse.reverse 0).map
        AdherenceMapping.adherence =
      ((getSanitizedAdherenceAux (fromSQL endStr) l.reverse 0).map
        AdherenceMapping.adherence).reverse
    rw [getSanitizedAdherenceAux_map_adherence, getSanitizedAdherenceAux_map_adherence]
  · show (getSanitizedAdherenceAux (fromSQL endStr) l.reverse.reverse 0).map
        AdherenceMapping.date =
      (getSanitizedAdherenceAux (fromSQL endStr) l.reverse 0).map AdherenceMapping.date
    rw [getSanitizedAdherenceAux_map_date, getSanitizedAdherenceAux_map_date]
    simp

/-! ## Event reconciler, V2 snapshot (`unnamed/part_009`)

`getDHIS2EventPayload` receives the computed data values for one calendar day
and the tracked entity's pre-existing remote events, and produces `none`
(nothing to write), a fresh event, or a merged update. -/

/-- A remote DHIS2 event as the V2 reconciler reads it (`event`, `occurredAt`,
`dataValues`); the `event` id is optional because the code guards it with
`existingEvent["event"] ?? uid()`. -/
structure REvent where
  event : Option String
  occurredAt : String
  dataValues : List DHIS2DataValue
deriving DecidableEq, Repr

/-- The V2 event payload shape (`DHIS2Event` with `trackedEntity`,
`enrollment`, `occurredAt`, `completedAt`). -/
structure DHIS2Event where
  event : String
  dataValues : List DHIS2DataValue
  trackedEntity : String
  enrollment : String
  orgUnit : String
  program : String
  programStage : String
  occurredAt : String
  completedAt : String
  status : String
deriving DecidableEq, Repr

/-- `find(dataValues, ({ dataElement }) => dataElement === de)?.value`. -/
def lookupDV (de : String) (l : List DHIS2DataValue) : Option String :=
  (l.find? fun dv => dv.dataElement = de).bind DHIS2DataValue.value

/-- The same-day lookup: `events && events.length ? head(filter(events, e =>
fromISO(e.occurredAt).toFormat("yyyy-MM-dd") == sanitizedEventDate)) : null`. -/
def findSameDayEvent (events : List REvent) (sanitizedEventDate : String) :
    Option REvent :=
  if events.isEmpty then none
  else (events.filter fun e => isoToYMD e.occurredAt = sanitizedEventDate).head?

/-- The `doseDateTime` ternary: keep the previous dosage time unless the
current one parses strictly later; with no previous value fall back to the
current one. -/
def resolveDoseDateTime (cur prev : Option String) : Option String :=
  if truthy prev then (if isoGt (cur.getD "") (prev.getD "") then cur else prev)
  else cur

/-- `getDHIS2EventPayload` (V2): create when no same-day remote event exists;
otherwise emit an update only when the device-signal value or the resolved
dosage-time value changed, merging the new signal and resolved dosage time
with the existing event's other data values. -/
def getDHIS2EventPayload (program programStage trackedEntity enrollment orgUnit
    eventDate : String) (events : List REvent)
    (dataValues : List DHIS2DataValue) (freshUid nowISO : String) :
    Option DHIS2Event :=
  let sanitizedEventDate := isoToYMD (sanitizeDatesIntoDateTime eventDate)
  match findSameDayEvent events sanitizedEventDate with
  | none =>
    some ⟨freshUid, dataValues, trackedEntity, enrollment, orgUnit, program,
      programStage, sanitizedEventDate, nowISO, "COMPLETED"⟩
  | some existingEvent =>
    let eventId := existingEvent.event.getD freshUid
    let currentDeviceSignalDataValue := lookupDV DEVICE_SIGNAL_DATA_ELEMENT dataValues
    let previousDeviceSignalDataValue :=
      lookupDV DEVICE_SIGNAL_DATA_ELEMENT existingEvent.dataValues
    let currentDoseDateDataValue := lookupDV DOSAGE_TIME_DATA_ELEMENT dataValues
    let previousDoseDateDataValue :=
      lookupDV DOSAGE_TIME_DATA_ELEMENT existingEvent.dataValues
    let doseDateTime :=
      resolveDoseDateTime currentDoseDateDataValue previousDoseDateDataValue
    if currentDeviceSignalDataValue ≠ previousDeviceSignalDataValue ∨
        doseDateTime ≠ previousDoseDateDataValue then
      some ⟨eventId,
        (existingEvent.dataValues.filter fun dv =>
          ¬(dv.dataElement = DEVICE_SIGNAL_DATA_ELEMENT ∨
            dv.dataElement = DOSAGE_TIME_DATA_ELEMENT)) ++
        (dataValues.filter fun dv => dv.dataElement = DEVICE_SIGNAL_DATA_ELEMENT) ++
        [⟨DOSAGE_TIME_DATA_ELEMENT, doseDateTime⟩],
        trackedEntity, enrollment, orgUnit, program, programStage,
        sanitizedEventDate, nowISO, "COMPLETED"⟩
    else none

/-! ### Data-value lookup lemmas -/

theorem find?_filter_self (p : DHIS2DataValue → Bool) (l : List DHIS2DataValue) :
    (l.filter p).find? p = l.find? p := by
  induction l with
  | nil => rfl
  | cons a l ih =>
    by_cases h : p a
    · simp [List.filter_cons, List.find?_cons, h]
    · simp only [List.filter_cons, List.find?_cons, h, Bool.false_eq_true, reduceIte,
        cond_false]
      exact ih

theorem lookupDV_append_left_none {de : String} {l₁ : List DHIS2DataValue}
    (l₂ : List DHIS2DataValue) (h : ∀ x ∈ l₁, ¬ x.dataElement = de) :
    lookupDV de (l₁ ++ l₂) = lookupDV de l₂ := by
  unfold lookupDV
  rw [List.find?_append]
  rw [List.find?_eq_none.mpr (by intro x hx; simpa using h x hx)]
  rfl

/-- Elements kept by the non-signal/non-dosage filter have other data
elements. -/
theorem mem_filter_others {l : List DHIS2DataValue} {x : DHIS2DataValue}
    (hx : x ∈ l.filter fun dv =>
      ¬(dv.dataElement = DEVICE_SIGNAL_DATA_ELEMENT ∨
        dv.dataElement = DOSAGE_TIME_DATA_ELEMENT)) :
    x.dataElement ≠ DEVICE_SIGNAL_DATA_ELEMENT ∧
      x.dataElement ≠ DOSAGE_TIME_DATA_ELEMENT := by
  rw [List.mem_filter] at hx
  have := hx.2
  simp only [decide_not, Bool.not_eq_true', decide_eq_false_iff_not] at this
  exact ⟨fun h => this (Or.inl h), fun h => this (Or.inr h)⟩

/-- The singleton dosage-time entry appended by the merge is not a
device-signal data value. -/
theorem find?_sig_dose_entry (dose : Option String) :
    (([⟨DOSAGE_TIME_DATA_ELEMENT, dose⟩] : List DHIS2DataValue).find? fun x =>
      x.dataElement = DEVICE_SIGNAL_DATA_ELEMENT) = none := by
  simp [List.find?_cons, DOSAGE_TIME_DATA_ELEMENT, DEVICE_SIGNAL_DATA_ELEMENT]

theorem find?_sig_in_others (l : List DHIS2DataValue) :
    ((l.filter fun x =>
      ¬(x.dataElement = DEVICE_SIGNAL_DATA_ELEMENT ∨
        x.dataElement = DOSAGE_TIME_DATA_ELEMENT)).find? fun x =>
      x.dataElement = DEVICE_SIGNAL_DATA_ELEMENT) = none := by
  rw [List.find?_eq_none]
  intro x hx
  simp only [decide_eq_true_eq]
  exact (mem_filter_others hx).1

theorem find?_dose_in_others (l : List DHIS2DataValue) :
    ((l.filter fun x =>
      ¬(x.dataElement = DEVICE_SIGNAL_DATA_ELEMENT ∨
        x.dataElement = DOSAGE_TIME_DATA_ELEMENT)).find? fun x =>
      x.dataElement = DOSAGE_TIME_DATA_ELEMENT) = none := by
  rw [List.find?_eq_none]
  intro x hx
  simp only [decide_eq_true_eq]
  exact (mem_filter_others hx).2

theorem find?_dose_in_sig (l : List DHIS2DataValue) :
    ((l.filter fun x => x.dataElement = DEVICE_SIGNAL_DATA_ELEMENT).find? fun x =>
      x.dataElement = DOSAGE_TIME_DATA_ELEMENT) = none := by
  rw [List.find?_eq_none]
  intro x hx
  rw [List.mem_filter] at hx
  have hde := of_decide_eq_true hx.2
  simp only [decide_eq_true_eq, hde]
  intro hcontra
  exact absurd hcontra (by decide)

/-- Looking up the device signal in the merged data-value list of
`getDHIS2EventPayload` yields the computed device-signal value. -/
theorem merged_lookup_signal (exdv dv : List DHIS2DataValue) (dose : Option String) :
    lookupDV DEVICE_SIGNAL_DATA_ELEMENT
      ((exdv.filter fun x =>
        ¬(x.dataElement = DEVICE_SIGNAL_DATA_ELEMENT ∨
          x.dataElement = DOSAGE_TIME_DATA_ELEMENT)) ++
      (dv.filter fun x => x.dataElement = DEVICE_SIGNAL_DATA_ELEMENT) ++
      [⟨DOSAGE_TIME_DATA_ELEMENT, dose⟩]) =
    lookupDV DEVICE_SIGNAL_DATA_ELEMENT dv := by
  unfold lookupDV
  rw [List.find?_append, List.find?_append]
  rw [find?_sig_in_others, Option.none_or, find?_filter_self]
  cases hfound : dv.find? fun x => decide (x.dataElement = DEVICE_SIGNAL_DATA_ELEMENT) with
  | some x => rfl
  | none => rw [Option.none_or, find?_sig_dose_entry]

/-- Looking up the dosage time in the merged data-value list yields the
resolved dosage-time value. -/
theorem merged_lookup_dose (exdv dv : List DHIS2DataValue) (dose : Option String) :
    lookupDV DOSAGE_TIME_DATA_ELEMENT
      ((exdv.filter fun x =>
        ¬(x.dataElement = DEVICE_SIGNAL_DATA_ELEMENT ∨
          x.dataElement = DOSAGE_TIME_DATA_ELEMENT)) ++
      (dv.filter fun x => x.dataElement = DEVICE_SIGNAL_DATA_ELEMENT) ++
      [⟨DOSAGE_TIME_DATA_ELEMENT, dose⟩]) = dose := by
  unfold lookupDV
  rw [List.find?_append, List.find?_append]
  rw [find?_dose_in_others, Option.none_or, find?_dose_in_sig, Option.none_or]
  simp [List.find?_cons]

theorem filter_others_idem (l : List DHIS2DataValue) :
    ((l.filter fun x =>
      ¬(x.dataElement = DEVICE_SIGNAL_DATA_ELEMENT ∨
        x.dataElement = DOSAGE_TIME_DATA_ELEMENT)).filter fun x =>
      ¬(x.dataElement = DEVICE_SIGNAL_DATA_ELEMENT ∨
        x.dataElement = DOSAGE_TIME_DATA_ELEMENT)) =
    l.filter fun x =>
      ¬(x.dataElement = DEVICE_SIGNAL_DATA_ELEMENT ∨
        x.dataElement = DOSAGE_TIME_DATA_ELEMENT) := by
  rw [List.filter_filter]
  apply List.filter_congr
  intro x _
  rw [Bool.and_self]

theorem filter_others_of_sig (dv : List DHIS2DataValue) :
    ((dv.filter fun x => x.dataElement = DEVICE_SIGNAL_DATA_ELEMENT).filter fun x =>
      ¬(x.dataElement = DEVICE_SIGNAL_DATA_ELEMENT ∨
        x.dataElement = DOSAGE_TIME_DATA_ELEMENT)) = [] := by
  rw [List.filter_eq_nil_iff]
  intro x hx
  rw [List.mem_filter] at hx
  have hde := of_decide_eq_true hx.2
  simp [hde]

theorem filter_others_dose_entry (dose : Option String) :
    (([⟨DOSAGE_TIME_DATA_ELEMENT, dose⟩] : List DHIS2DataValue).filter fun x =>
      ¬(x.dataElement = DEVICE_SIGNAL_DATA_ELEMENT ∨
        x.dataElement = DOSAGE_TIME_DATA_ELEMENT)) = [] := by
  simp [List.filter_cons, DOSAGE_TIME_DATA_ELEMENT, DEVICE_SIGNAL_DATA_ELEMENT]

/-- The non-signal/non-dosage data values of the merged list are exactly those
of the existing event. -/
theorem merged_filter_others (exdv dv : List DHIS2DataValue) (dose : Option String) :
    ((((exdv.filter fun x =>
        ¬(x.dataElement = DEVICE_SIGNAL_DATA_ELEMENT ∨
          x.dataElement = DOSAGE_TIME_DATA_ELEMENT)) ++
      (dv.filter fun x => x.dataElement = DEVICE_SIGNAL_DATA_ELEMENT) ++
      [⟨DOSAGE_TIME_DATA_ELEMENT, dose⟩] : List DHIS2DataValue)).filter fun x =>
        ¬(x.dataElement = DEVICE_SIGNAL_DATA_ELEMENT ∨
          x.dataElement = DOSAGE_TIME_DATA_ELEMENT)) =
    exdv.filter fun x =>
      ¬(x.dataElement = DEVICE_SIGNAL_DATA_ELEMENT ∨
        x.dataElement = DOSAGE_TIME_DATA_ELEMENT) := by
  rw [List.filter_append, List.filter_append]
  rw [filter_others_idem, filter_others_of_sig, filter_others_dose_entry]
  rw [List.append_nil, List.append_nil]

/-- When a same-day remote event exists, `getDHIS2EventPayload` is a no-op
exactly when both the device-signal value and the resolved dosage-time value
are unchanged. -/
theorem getDHIS2EventPayload_none_iff (program programStage trackedEntity
    enrollment orgUnit eventDate freshUid nowISO : String)
    (events : List REvent) (dataValues : List DHIS2DataValue) (ex : REvent)
    (hfind : findSameDayEvent events
      (isoToYMD (sanitizeDatesIntoDateTime eventDate)) = some ex) :
    getDHIS2EventPayload program programStage trackedEntity enrollment orgUnit
        eventDate events dataValues freshUid nowISO = none ↔
      (lookupDV DEVICE_SIGNAL_DATA_ELEMENT dataValues =
          lookupDV DEVICE_SIGNAL_DATA_ELEMENT ex.dataValues ∧
        resolveDoseDateTime (lookupDV DOSAGE_TIME_DATA_ELEMENT dataValues)
            (lookupDV DOSAGE_TIME_DATA_ELEMENT ex.dataValues) =
          lookupDV DOSAGE_TIME_DATA_ELEMENT ex.dataValues) := by
  unfold getDHIS2EventPayload
  dsimp only
  rw [hfind]
  dsimp only
  by_cases hch : lookupDV DEVICE_SIGNAL_DATA_ELEMENT dataValues ≠
      lookupDV DEVICE_SIGNAL_DATA_ELEMENT ex.dataValues ∨
      resolveDoseDateTime (lookupDV DOSAGE_TIME_DATA_ELEMENT dataValues)
          (lookupDV DOSAGE_TIME_DATA_ELEMENT ex.dataValues) ≠
        lookupDV DOSAGE_TIME_DATA_ELEMENT ex.dataValues
  · rw [if_pos hch]
    refine iff_of_false (by simp) ?_
    intro hc
    rcases hch with h | h
    · exact h hc.1
    · exact h hc.2
  · rw [if_neg hch]
    push_neg at hch
    exact iff_of_true rfl hch

/-- When a same-day remote event exists and `getDHIS2EventPayload` emits an
update, the update carries the new signal, the resolved dosage time, the
existing event's other data values, and the existing event's id. -/
theorem getDHIS2EventPayload_some_spec (program programStage trackedEntity
    enrollment orgUnit eventDate freshUid nowISO : String)
    (events : List REvent) (dataValues : List DHIS2DataValue) (ex : REvent)
    (hfind : findSameDayEvent events
      (isoToYMD (sanitizeDatesIntoDateTime eventDate)) = some ex)
    (p : DHIS2Event)
    (hp : getDHIS2EventPayload program programStage trackedEntity enrollment
      orgUnit eventDate events dataValues freshUid nowISO = some p) :
    lookupDV DEVICE_SIGNAL_DATA_ELEMENT p.dataValues =
        lookupDV DEVICE_SIGNAL_DATA_ELEMENT dataValues ∧
      lookupDV DOSAGE_TIME_DATA_ELEMENT p.dataValues =
        resolveDoseDateTime (lookupDV DOSAGE_TIME_DATA_ELEMENT dataValues)
          (lookupDV DOSAGE_TIME_DATA_ELEMENT ex.dataValues) ∧
      (p.dataValues.filter fun dv =>
          ¬(dv.dataElement = DEVICE_SIGNAL_DATA_ELEMENT ∨
            dv.dataElement = DOSAGE_TIME_DATA_ELEMENT)) =
        (ex.dataValues.filter fun dv =>
          ¬(dv.dataElement = DEVICE_SIGNAL_DATA_ELEMENT ∨
            dv.dataElement = DOSAGE_TIME_DATA_ELEMENT)) ∧
      p.event = ex.event.getD freshUid := by
  unfold getDHIS2EventPayload at hp
  dsimp only at hp
  rw [hfind] at hp
  dsimp only at hp
  split at hp
  · simp only [Option.some.injEq] at hp
    subst hp
    exact ⟨merged_lookup_signal ex.dataValues dataValues _,
      merged_lookup_dose ex.dataValues dataValues _,
      merged_filter_others ex.dataValues dataValues _, rfl⟩
  · exact absurd hp (by simp)

/-- C1 (amended): when a same-day remote event exists, `getDHIS2EventPayload`
emits nothing exactly when both the device-signal value and the resolved
dosage-time value (the later of computed and stored dosage times) are
unchanged; when it emits, the update carries the newly computed device-signal
value, the resolved dosage-time value, the existing event's remaining
(non-signal, non-dosage) data values unchanged, and the existing event's id. -/
theorem claim_C1_merge_with_existing (program programStage trackedEntity
    enrollment orgUnit eventDate freshUid nowISO : String)
    (events : List REvent) (dataValues : List DHIS2DataValue) (ex : REvent)
    (hfind : findSameDayEvent events
      (isoToYMD (sanitizeDatesIntoDateTime eventDate)) = some ex) :
    (getDHIS2EventPayload program programStage trackedEntity enrollment orgUnit
        eventDate events dataValues freshUid nowISO = none ↔
      (lookupDV DEVICE_SIGNAL_DATA_ELEMENT dataValues =
          lookupDV DEVICE_SIGNAL_DATA_ELEMENT ex.dataValues ∧
        resolveDoseDateTime (lookupDV DOSAGE_TIME_DATA_ELEMENT dataValues)
            (lookupDV DOSAGE_TIME_DATA_ELEMENT ex.dataValues) =
          lookupDV DOSAGE_TIME_DATA_ELEMENT ex.dataValues)) ∧
    (∀ p, getDHIS2EventPayload program programStage trackedEntity enrollment
        orgUnit eventDate events dataValues freshUid nowISO = some p →
      lookupDV DEVICE_SIGNAL_DATA_ELEMENT p.dataValues =
          lookupDV DEVICE_SIGNAL_DATA_ELEMENT dataValues ∧
        lookupDV DOSAGE_TIME_DATA_ELEMENT p.dataValues =
          resolveDoseDateTime (lookupDV DOSAGE_TIME_DATA_ELEMENT dataValues)
            (lookupDV DOSAGE_TIME_DATA_ELEMENT ex.dataValues) ∧
        (p.dataValues.filter fun dv =>
            ¬(dv.dataElement = DEVICE_SIGNAL_DATA_ELEMENT ∨
              dv.dataElement = DOSAGE_TIME_DATA_ELEMENT)) =
          (ex.dataValues.filter fun dv =>
            ¬(dv.dataElement = DEVICE_SIGNAL_DATA_ELEMENT ∨
              dv.dataElement = DOSAGE_TIME_DATA_ELEMENT)) ∧
        p.event = ex.event.getD freshUid) :=
  ⟨getDHIS2EventPayload_none_iff program programStage trackedEntity enrollment
      orgUnit eventDate freshUid nowISO events dataValues ex hfind,
    fun p hp => getDHIS2EventPayload_some_spec program programStage
      trackedEntity enrollment orgUnit eventDate freshUid nowISO events
      dataValues ex hfind p hp⟩

/-- Existing remote event for the C1 counterexample: same calendar day
2024-03-02, stored signal "Once", stored dosage time 2024-03-01T09:00:00. -/
def c1Existing : REvent :=
  ⟨some "ev1", "2024-03-02",
    [⟨DEVICE_SIGNAL_DATA_ELEMENT, some "Once"⟩,
     ⟨DOSAGE_TIME_DATA_ELEMENT, some "2024-03-01T09:00:00"⟩]⟩

/-- Computed data values for the C1 counterexample: same signal "Once", but a
newer dosage time (2024-03-02T08:00:00). -/
def c1DataValues : List DHIS2DataValue :=
  generateDataValuesFromAdherenceMapping ⟨"2024-03-02 08:00:00", "1"⟩ none none

/-- C1 counterexample: a same-day remote event exists and the computed
device-signal value equals the stored one, yet `getDHIS2EventPayload` emits a
payload (because the computed dosage time is newer) — refuting "emits nothing
when the computed device-signal value equals the stored one". -/
theorem claim_C1_counterexample :
    lookupDV DEVICE_SIGNAL_DATA_ELEMENT c1DataValues =
        lookupDV DEVICE_SIGNAL_DATA_ELEMENT c1Existing.dataValues ∧
      findSameDayEvent [c1Existing]
        (isoToYMD (sanitizeDatesIntoDateTime "2024-03-02 08:00:00")) =
        some c1Existing ∧
      getDHIS2EventPayload "p" "ps" "te" "en" "ou" "2024-03-02 08:00:00"
        [c1Existing] c1DataValues "uidX" "2024-03-05T10:00:00" ≠ none := by
  decide

theorem claim_C1_merge_with_existing_witness :
    findSameDayEvent [c1Existing]
      (isoToYMD (sanitizeDatesIntoDateTime "2024-03-02 08:00:00")) =
      some c1Existing ∧
    (getDHIS2EventPayload "p" "ps" "te" "en" "ou" "2024-03-02 08:00:00"
        [c1Existing] c1DataValues "uidX" "2024-03-05T10:00:00" = none ↔
      (lookupDV DEVICE_SIGNAL_DATA_ELEMENT c1DataValues =
          lookupDV DEVICE_SIGNAL_DATA_ELEMENT c1Existing.dataValues ∧
        resolveDoseDateTime (lookupDV DOSAGE_TIME_DATA_ELEMENT c1DataValues)
            (lookupDV DOSAGE_TIME_DATA_ELEMENT c1Existing.dataValues) =
          lookupDV DOSAGE_TIME_DATA_ELEMENT c1Existing.dataValues)) :=
  ⟨by decide,
    (claim_C1_merge_with_existing "p" "ps" "te" "en" "ou" "2024-03-02 08:00:00"
      "uidX" "2024-03-05T10:00:00" [c1Existing] c1DataValues c1Existing
      (by decide)).1⟩

/-! ### Reconciliation idempotence at the per-day level (C5) -/

/-- A produced payload, as the next run reads it back from the tracker. -/
def DHIS2Event.toREvent (p : DHIS2Event) : REvent :=
  ⟨some p.event, p.occurredAt, p.dataValues⟩

theorem resolveDoseDateTime_self (c : Option String) :
    resolveDoseDateTime c c = c := by
  unfold resolveDoseDateTime
  by_cases h : truthy c = true
  · rw [if_pos h, ite_self]
  · rw [if_neg h]

theorem resolveDoseDateTime_cases (c p0 : Option String) :
    resolveDoseDateTime c p0 = c ∨ resolveDoseDateTime c p0 = p0 := by
  unfold resolveDoseDateTime
  by_cases h : truthy p0 = true
  · rw [if_pos h]
    by_cases hg : isoGt (c.getD "") (p0.getD "") = true
    · rw [if_pos hg]
      exact Or.inl rfl
    · rw [if_neg hg]
      exact Or.inr rfl
  · rw [if_neg h]
    exact Or.inl rfl

/-- Re-resolving a dosage time against an already-resolved value changes
nothing. -/
theorem resolveDoseDateTime_absorb (c p0 : Option String) :
    resolveDoseDateTime c (resolveDoseDateTime c p0) = resolveDoseDateTime c p0 := by
  rcases resolveDoseDateTime_cases c p0 with h | h
  · rw [h]
    exact resolveDoseDateTime_self c
  · rw [h]
    exact h

theorem parseDTWith_valid {sep : Char} {s : String} {t : DT}
    (h : parseDTWith sep s = some t) : t.date.valid := by
  unfold parseDTWith at h
  split at h
  · rename_i dpart heqn
    cases hp : parseDateChars dpart with
    | none => rw [hp] at h; exact absurd h (by simp)
    | some dd =>
      rw [hp] at h
      simp at h
      subst h
      exact parseDateChars_valid hp
  · rename_i dpart tpart heqn
    cases hp : parseDateChars dpart with
    | none => rw [hp] at h; exact absurd h (by simp)
    | some dd =>
      rw [hp] at h
      cases ht : parseTimeChars tpart with
      | none => rw [ht] at h; exact absurd h (by simp)
      | some tt =>
        rw [ht] at h
        simp only [Option.some.injEq] at h
        subst h
        exact parseDateChars_valid hp
  · exact absurd h (by simp)

/-- Formatting a day back to "yyyy-MM-dd" and reparsing is stable: the
day-granularity comparison key of a string already in day format is itself. -/
theorem isoToYMD_idem (s : String) : isoToYMD (isoToYMD s) = isoToYMD s := by
  unfold isoToYMD
  cases hf : fromISO s with
  | none =>
    dsimp only
    have hinv : fromISO "Invalid DateTime" = none := by decide
    rw [hinv]
  | some t =>
    dsimp only
    have hv : t.date.valid := parseDTWith_valid hf
    have h2 : fromISO t.date.fmtYMD = some ⟨t.date, 0⟩ :=
      parseDTWith_fmtYMD 'T' (by decide) (by decide) t.date hv
    rw [h2]

/-- Structure of any payload `getDHIS2EventPayload` emits: it is dated at the
sanitized event day, and its data values are either the computed ones (create)
or the merge of the matched event's values with the computed ones (update). -/
theorem getDHIS2EventPayload_some_cases (program programStage trackedEntity
    enrollment orgUnit eventDate freshUid nowISO : String)
    (events : List REvent) (dataValues : List DHIS2DataValue)
    (p : DHIS2Event)
    (hp : getDHIS2EventPayload program programStage trackedEntity enrollment
      orgUnit eventDate events dataValues freshUid nowISO = some p) :
    p.occurredAt = isoToYMD (sanitizeDatesIntoDateTime eventDate) ∧
      (p.dataValues = dataValues ∨
        ∃ ex, findSameDayEvent events
            (isoToYMD (sanitizeDatesIntoDateTime eventDate)) = some ex ∧
          p.dataValues =
            (ex.dataValues.filter fun dv =>
              ¬(dv.dataElement = DEVICE_SIGNAL_DATA_ELEMENT ∨
                dv.dataElement = DOSAGE_TIME_DATA_ELEMENT)) ++
            (dataValues.filter fun dv =>
              dv.dataElement = DEVICE_SIGNAL_DATA_ELEMENT) ++
            [⟨DOSAGE_TIME_DATA_ELEMENT,
              resolveDoseDateTime (lookupDV DOSAGE_TIME_DATA_ELEMENT dataValues)
                (lookupDV DOSAGE_TIME_DATA_ELEMENT ex.dataValues)⟩]) := by
  unfold getDHIS2EventPayload at hp
  dsimp only at hp
  cases hfind : findSameDayEvent events
      (isoToYMD (sanitizeDatesIntoDateTime eventDate)) with
  | none =>
    rw [hfind] at hp
    dsimp only at hp
    simp only [Option.some.injEq] at hp
    subst hp
    exact ⟨rfl, Or.inl rfl⟩
  | some ex =>
    rw [hfind] at hp
    dsimp only at hp
    split at hp
    · simp only [Option.some.injEq] at hp
      subst hp
      exact ⟨rfl, Or.inr ⟨ex, rfl, rfl⟩⟩
    · exact absurd hp (by simp)

/-- C5 (amended, per-day form): feeding a payload emitted by one run back as
the same-day remote event makes the next run a no-op for that day — per-day
reconciliation is idempotent.  (The run-level statement fails when two
computed events share a calendar day; see the counterexample.) -/
theorem claim_C5_second_run_noop (program programStage trackedEntity
    enrollment orgUnit eventDate freshUid nowISO freshUid2 nowISO2 : String)
    (events : List REvent) (dataValues : List DHIS2DataValue) (p : DHIS2Event)
    (h1 : getDHIS2EventPayload program programStage trackedEntity enrollment
      orgUnit eventDate events dataValues freshUid nowISO = some p) :
    getDHIS2EventPayload program programStage trackedEntity enrollment orgUnit
      eventDate (p.toREvent :: events) dataValues freshUid2 nowISO2 = none := by
  obtain ⟨hocc, hdv⟩ := getDHIS2EventPayload_some_cases program programStage
    trackedEntity enrollment orgUnit eventDate freshUid nowISO events
    dataValues p h1
  have hfind2 : findSameDayEvent (p.toREvent :: events)
      (isoToYMD (sanitizeDatesIntoDateTime eventDate)) = some p.toREvent := by
    unfold findSameDayEvent
    rw [if_neg (by simp)]
    rw [List.filter_cons]
    rw [if_pos (by
      show (decide (isoToYMD p.toREvent.occurredAt =
        isoToYMD (sanitizeDatesIntoDateTime eventDate))) = true
      rw [show p.toREvent.occurredAt = p.occurredAt from rfl, hocc,
        isoToYMD_idem]
      exact decide_eq_true rfl)]
    rfl
  rw [getDHIS2EventPayload_none_iff program programStage trackedEntity
    enrollment orgUnit eventDate freshUid2 nowISO2 (p.toREvent :: events)
    dataValues p.toREvent hfind2]
  have hval : p.toREvent.dataValues = p.dataValues := rfl
  rcases hdv with h | ⟨ex, hex, h⟩
  · rw [hval, h]
    exact ⟨rfl, resolveDoseDateTime_self _⟩
  · rw [hval, h]
    exact ⟨(merged_lookup_signal ex.dataValues dataValues _).symm ▸ rfl,
      by rw [merged_lookup_dose]; exact resolveDoseDateTime_absorb _ _⟩

/-- Data values for the C5 witness: a freshly created event fed back into a
second run. -/
def c5DataValues : List DHIS2DataValue :=
  generateDataValuesFromAdherenceMapping ⟨"2024-03-02 08:00:00", "1"⟩ none none

def c5Payload : DHIS2Event :=
  ⟨"u1", c5DataValues, "te", "en", "ou", "p", "ps", "2024-03-02",
    "2024-03-02T09:00:00", "COMPLETED"⟩

theorem claim_C5_second_run_noop_witness :
    getDHIS2EventPayload "p" "ps" "te" "en" "ou" "2024-03-02 08:00:00" []
        c5DataValues "u1" "2024-03-02T09:00:00" = some c5Payload ∧
      getDHIS2EventPayload "p" "ps" "te" "en" "ou" "2024-03-02 08:00:00"
        (c5Payload.toREvent :: []) c5DataValues "u2" "2024-03-03T09:00:00" =
        none :=
  ⟨by decide,
    claim_C5_second_run_noop "p" "ps" "te" "en" "ou" "2024-03-02 08:00:00"
      "u1" "2024-03-02T09:00:00" "u2" "2024-03-03T09:00:00" [] c5DataValues
      c5Payload (by decide)⟩

/-! ## `generateEventPayload`, V2 snapshot (`unnamed/part_009`, lines 228–385)

The per-tracked-entity body of the `for` loop; the whole run is the
concatenation over all tracked entity instances.  Fresh uids and "now" are
passed in explicitly. -/

/-- A fetched Wisepill episode as `getWisepillEpisodeValues` sanitizes it. -/
structure Episode where
  id : Option String
  imei : String
  adherenceString : Option String
  episodeStartDate : Option String
  lastSeen : Option String
  deviceStatus : String
  batteryLevel : String
deriving DecidableEq, Repr

/-- A DHIS2 tracked entity instance with its pre-fetched program-stage
events. -/
structure TrackedEntityInstance where
  imei : String
  trackedEntity : String
  enrollment : String
  orgUnit : String
  events : List REvent
deriving DecidableEq, Repr

/-- One element of the `adherenceEvents` array built in the no-window path. -/
structure AdhEvent where
  eventDate : String
  adherence : String
  dataValues : List DHIS2DataValue
deriving DecidableEq, Repr

/-- `adherenceString.split(",")`: JavaScript single-character split; on the
empty string it yields `[""]`. -/
def splitCommas (s : String) : List String :=
  (splitSep ',' s.data).map fun cs => (⟨cs⟩ : String)

/-- The no-window expansion loop: one dated pair per adherence character,
dates counted forward from `episodeStartDate`, except that the last
character is dated at `lastSeen` (as a full ISO timestamp). -/
def buildEpisodeAdherencesGo (episodeStartDate lastSeen : Option String)
    (n : Nat) : List String → Nat → List AdherenceMapping
  | [], _ => []
  | sanitizedAdherence :: rest, daysFromEpisodeStart =>
    let episodeDate :=
      if daysFromEpisodeStart + 1 = n then
        ((fromSQL (lastSeen.getD "")).map DT.toISO).getD ""
      else
        match fromSQL (episodeStartDate.getD "") with
        | some t => (t.plusDays daysFromEpisodeStart).date.fmtYMD
        | none => "Invalid DateTime"
    ⟨episodeDate, sanitizedAdherence⟩ ::
      buildEpisodeAdherencesGo episodeStartDate lastSeen n rest
        (daysFromEpisodeStart + 1)

/-- `map(episodeAdherences, …).reverse()`: attach the event date and the
per-day data values (with battery and device health) and walk newest
first. -/
def toAdhEvents (batteryLevel deviceStatus : Option String)
    (episodeAdherences : List AdherenceMapping) : List AdhEvent :=
  (episodeAdherences.map fun m =>
    ⟨m.date, m.adherence,
      generateDataValuesFromAdherenceMapping m batteryLevel deviceStatus⟩).reverse

/-- The no-window emit loop: `break` at the first "0" code, push each non-null
payload. -/
def emitAdherenceEvents (builder : AdhEvent → Option DHIS2Event) :
    List AdhEvent → List DHIS2Event
  | [] => []
  | e :: rest =>
    if e.adherence = "0" then []
    else
      match builder e with
      | some teiEvent => teiEvent :: emitAdherenceEvents builder rest
      | none => emitAdherenceEvents builder rest

/-- The body of V2 `generateEventPayload`'s per-tracked-entity loop
(`unnamed/part_009` lines 242–382). -/
def generateEventPayloadForInstance (program programStage : String)
    (episodes : List Episode) (mapping : List (String × String))
    (startDate endDate : Option String) (now : DT) (freshUid : String)
    (tei : TrackedEntityInstance) : List DHIS2Event :=
  let teiEpisodeId := (mapping.find? fun pr => pr.1 = tei.trackedEntity).map Prod.snd
  if ¬ truthy teiEpisodeId then []
  else
    match episodes.find? fun ep => ep.id = teiEpisodeId with
    | none => []
    | some teiEpisode =>
      let adherences := splitCommas (teiEpisode.adherenceString.getD "")
      if ¬ truthy startDate ∧ ¬ truthy endDate ∧ truthy teiEpisode.lastSeen then
        -- staleness of lastSeen is only logged here, never gates emission
        let episodeAdherences := buildEpisodeAdherencesGo
          teiEpisode.episodeStartDate teiEpisode.lastSeen adherences.length
          adherences 0
        let adherenceEvents := toAdhEvents (some teiEpisode.batteryLevel)
          (some teiEpisode.deviceStatus) episodeAdherences
        emitAdherenceEvents
          (fun e => getDHIS2EventPayload program programStage tei.trackedEntity
            tei.enrollment tei.orgUnit e.eventDate tei.events e.dataValues
            freshUid now.toISO)
          adherenceEvents
      else if truthy startDate ∨ truthy endDate then
        let episodeAdherences :=
          (getSanitizedAdherence adherences (teiEpisode.episodeStartDate.getD "")).1
        let evaluationStartDate :=
          if truthy startDate then fromISO (startDate.getD "")
          else fromISO "2000-01-01"
        let evaluationEndDate :=
          if truthy endDate then fromISO (endDate.getD "") else some now
        episodeAdherences.filterMap fun m =>
          if optLe evaluationStartDate (fromISO m.date) &&
              optLe (fromISO m.date) evaluationEndDate then
            getDHIS2EventPayload program programStage tei.trackedEntity
              tei.enrollment tei.orgUnit m.date tei.events
              (generateDataValuesFromAdherenceMapping m none none) freshUid
              now.toISO
          else none
      else []

/-- V2 `generateEventPayload`: the accumulated payloads over all tracked
entity instances. -/
def generateEventPayloadV2 (program programStage : String)
    (episodes : List Episode) (mapping : List (String × String))
    (startDate endDate : Option String) (now : DT) (freshUid : String)
    (teis : List TrackedEntityInstance) : List DHIS2Event :=
  (teis.map (generateEventPayloadForInstance program programStage episodes
    mapping startDate endDate now freshUid)).flatten

/-! ### C2: staleness in the no-window path (V2 only warns) -/

/-- C2 counterexample data: an episode last seen 2024-03-01 10:00:00. -/
def c2Episode : Episode :=
  ⟨some "ep1", "imei1", some "1,1", some "2024-03-01",
    some "2024-03-01 10:00:00", "", ""⟩

def c2Tei : TrackedEntityInstance := ⟨"imei1", "te1", "en1", "ou1", []⟩

/-- C2 counterexample: in the V2 reconciler, with no evaluation window and a
`lastSeenTimestamp` more than 1 day (here: almost 4 days) before "now", the
run still emits payloads for the entity — staleness is logged but does not
skip. -/
theorem claim_C2_counterexample :
    fromSQL "2024-03-01 10:00:00" = some ⟨⟨2024, 3, 1⟩, 36000⟩ ∧
      (DT.instSecs ⟨⟨2024, 3, 5⟩, 0⟩ - DT.instSecs ⟨⟨2024, 3, 1⟩, 36000⟩) >
        86400 ∧
      generateEventPayloadForInstance "p" "ps" [c2Episode] [("te1", "ep1")]
        none none ⟨⟨2024, 3, 5⟩, 0⟩ "u1" c2Tei ≠ [] := by
  decide

/-! ### C5 counterexample: run-level idempotence fails on a calendar-day
collision between the lastSeen-dated event and an expanded episode day. -/

def c5ceEpisode : Episode :=
  ⟨some "ep5", "imei5", some "1,2", some "2024-03-01",
    some "2024-03-01 10:00:00", "", ""⟩

def c5ceTei : TrackedEntityInstance := ⟨"imei5", "te5", "en5", "ou5", []⟩

/-- First-run payload for the newest (lastSeen-dated) code "2". -/
def c5ceP1 : DHIS2Event :=
  ⟨"u1", [⟨DOSAGE_TIME_DATA_ELEMENT, some "2024-03-01T10:00:00"⟩,
          ⟨DEVICE_SIGNAL_DATA_ELEMENT, some "Multiple"⟩],
    "te5", "en5", "ou5", "p", "ps", "2024-03-01", "2024-03-01T12:00:00",
    "COMPLETED"⟩

/-- First-run payload for the expanded day 2024-03-01 with code "1" — the same
calendar day as `c5ceP1`. -/
def c5ceP2 : DHIS2Event :=
  ⟨"u1", [⟨DOSAGE_TIME_DATA_ELEMENT, some "2024-03-01"⟩,
          ⟨DEVICE_SIGNAL_DATA_ELEMENT, some "Once"⟩],
    "te5", "en5", "ou5", "p", "ps", "2024-03-01", "2024-03-01T12:00:00",
    "COMPLETED"⟩

/-- C5 counterexample: the first no-window run on an empty remote store emits
two events for the same calendar day (the adherence sequence is one day longer
than the elapsed episode span, so the lastSeen-dated event collides with the
expanded day); rerunning on the remote state produced by that run emits a
further (non-zero) update, refuting run-level idempotence as stated. -/
theorem claim_C5_counterexample :
    generateEventPayloadForInstance "p" "ps" [c5ceEpisode] [("te5", "ep5")]
        none none ⟨⟨2024, 3, 1⟩, 43200⟩ "u1" c5ceTei = [c5ceP1, c5ceP2] ∧
      generateEventPayloadForInstance "p" "ps" [c5ceEpisode] [("te5", "ep5")]
        none none ⟨⟨2024, 3, 1⟩, 43200⟩ "u2"
        ⟨"imei5", "te5", "en5", "ou5", [c5ceP1.toREvent, c5ceP2.toREvent]⟩ ≠
        [] := by
  decide

/-! ### C3: the no-window path emits exactly the trailing run of non-None
days, newest first -/

/-- With no pre-existing remote events, `getDHIS2EventPayload` always creates
a fresh event carrying the computed data values. -/
theorem getDHIS2EventPayload_no_events (program programStage trackedEntity
    enrollment orgUnit eventDate : String) (dataValues : List DHIS2DataValue)
    (freshUid nowISO : String) :
    getDHIS2EventPayload program programStage trackedEntity enrollment orgUnit
      eventDate [] dataValues freshUid nowISO =
      some ⟨freshUid, dataValues, trackedEntity, enrollment, orgUnit, program,
        programStage, isoToYMD (sanitizeDatesIntoDateTime eventDate), nowISO,
        "COMPLETED"⟩ := rfl

/-- The `break`-at-"0" loop is `takeWhile` of the non-"0" prefix followed by
the non-null payloads. -/
theorem emitAdherenceEvents_eq_takeWhile (builder : AdhEvent → Option DHIS2Event)
    (l : List AdhEvent) :
    emitAdherenceEvents builder l =
      (l.takeWhile fun e => e.adherence ≠ "0").filterMap builder := by
  induction l with
  | nil => rfl
  | cons e rest ih =>
    by_cases h : e.adherence = "0"
    · rw [emitAdherenceEvents, if_pos h]
      rw [List.takeWhile_cons, if_neg (by simp [h])]
      rfl
    · rw [emitAdherenceEvents, if_neg h]
      rw [List.takeWhile_cons, if_pos (by simp [h])]
      rw [List.filterMap_cons]
      cases hb : builder e with
      | none => rw [ih]
      | some p => rw [ih]

theorem filterMap_some_map {α β : Type} (f : α → β) (l : List α) :
    l.filterMap (fun x => some (f x)) = l.map f := by
  induction l with
  | nil => rfl
  | cons a l ih => simp [List.filterMap_cons, ih]

/-- The device-signal value of the per-day data values is always the
sanitized adherence code. -/
theorem lookupDV_generateDataValues_sig (m : AdherenceMapping)
    (batteryLevel deviceStatus : Option String) :
    lookupDV DEVICE_SIGNAL_DATA_ELEMENT
        (generateDataValuesFromAdherenceMapping m batteryLevel deviceStatus) =
      some (sanitizeAdherenceCode m.adherence) := by
  unfold generateDataValuesFromAdherenceMapping lookupDV
  rw [List.append_assoc, List.cons_append, List.cons_append]
  rw [List.find?_cons_of_neg _ (by
    simp [DOSAGE_TIME_DATA_ELEMENT, DEVICE_SIGNAL_DATA_ELEMENT])]
  rw [List.find?_cons_of_pos _ (by simp)]
  rfl

/-- The codes column of the no-window expansion is the input code list. -/
theorem buildEpisodeAdherencesGo_map_adherence (esd ls : Option String)
    (n : Nat) (l : List String) (k : Nat) :
    (buildEpisodeAdherencesGo esd ls n l k).map AdherenceMapping.adherence = l := by
  induction l generalizing k with
  | nil => rfl
  | cons a rest ih => simp [buildEpisodeAdherencesGo, ih]

theorem toAdhEvents_map_adherence (b d : Option String)
    (l : List AdherenceMapping) :
    (toAdhEvents b d l).map AdhEvent.adherence =
      (l.map AdherenceMapping.adherence).reverse := by
  unfold toAdhEvents
  rw [List.map_reverse, List.map_map]
  rfl

theorem toAdhEvents_dataValues (b d : Option String) (l : List AdherenceMapping)
    (e : AdhEvent) (he : e ∈ toAdhEvents b d l) :
    e.dataValues =
      generateDataValuesFromAdherenceMapping ⟨e.eventDate, e.adherence⟩ b d := by
  unfold toAdhEvents at he
  rw [List.mem_reverse, List.mem_map] at he
  obtain ⟨m, _, hm⟩ := he
  subst hm
  rfl

/-- C3: in the no-window path the reconciler walks the generated adherence
events newest first, stops at the first "0" ("None received") day, and — with
no pre-existing remote events — emits exactly one fresh event per day of the
contiguous trailing run of non-"0" codes, in newest-first order. -/
theorem claim_C3_trailing_run (program programStage : String)
    (episodes : List Episode) (mapping : List (String × String))
    (startDate endDate : Option String) (now : DT) (freshUid : String)
    (tei : TrackedEntityInstance) (ep : Episode)
    (hid : truthy ((mapping.find? fun pr =>
      pr.1 = tei.trackedEntity).map Prod.snd) = true)
    (hep : (episodes.find? fun e => e.id =
      ((mapping.find? fun pr => pr.1 = tei.trackedEntity).map Prod.snd)) =
      some ep)
    (hs : truthy startDate = false) (he : truthy endDate = false)
    (hls : truthy ep.lastSeen = true)
    (hev : tei.events = []) :
    generateEventPayloadForInstance program programStage episodes mapping
        startDate endDate now freshUid tei =
      ((toAdhEvents (some ep.batteryLevel) (some ep.deviceStatus)
          (buildEpisodeAdherencesGo ep.episodeStartDate ep.lastSeen
            (splitCommas (ep.adherenceString.getD "")).length
            (splitCommas (ep.adherenceString.getD "")) 0)).takeWhile
          (fun e => e.adherence ≠ "0")).map
        (fun e => ⟨freshUid, e.dataValues, tei.trackedEntity, tei.enrollment,
          tei.orgUnit, program, programStage,
          isoToYMD (sanitizeDatesIntoDateTime e.eventDate), now.toISO,
          "COMPLETED"⟩) ∧
    (generateEventPayloadForInstance program programStage episodes mapping
        startDate endDate now freshUid tei).map
          (fun p => lookupDV DEVICE_SIGNAL_DATA_ELEMENT p.dataValues) =
      ((splitCommas (ep.adherenceString.getD "")).reverse.takeWhile
          (fun c => c ≠ "0")).map
        (fun c => some (sanitizeAdherenceCode c)) := by
  have hmain : generateEventPayloadForInstance program programStage episodes
      mapping startDate endDate now freshUid tei =
      ((toAdhEvents (some ep.batteryLevel) (some ep.deviceStatus)
          (buildEpisodeAdherencesGo ep.episodeStartDate ep.lastSeen
            (splitCommas (ep.adherenceString.getD "")).length
            (splitCommas (ep.adherenceString.getD "")) 0)).takeWhile
          (fun e => e.adherence ≠ "0")).map
        (fun e => ⟨freshUid, e.dataValues, tei.trackedEntity, tei.enrollment,
          tei.orgUnit, program, programStage,
          isoToYMD (sanitizeDatesIntoDateTime e.eventDate), now.toISO,
          "COMPLETED"⟩) := by
    unfold generateEventPayloadForInstance
    dsimp only
    rw [if_neg (fun hcon => (hcon hid).elim)]
    rw [hep]
    dsimp only
    rw [if_pos ⟨by simp [hs], by simp [he], hls⟩]
    rw [hev]
    rw [emitAdherenceEvents_eq_takeWhile]
    have hbuilder : (fun e => getDHIS2EventPayload program programStage
        tei.trackedEntity tei.enrollment tei.orgUnit e.eventDate []
        e.dataValues freshUid now.toISO) =
        (fun (e : AdhEvent) => some (⟨freshUid, e.dataValues,
          tei.trackedEntity, tei.enrollment, tei.orgUnit, program,
          programStage, isoToYMD (sanitizeDatesIntoDateTime e.eventDate),
          now.toISO, "COMPLETED"⟩ : DHIS2Event)) := by
      funext e
      exact getDHIS2EventPayload_no_events program programStage
        tei.trackedEntity tei.enrollment tei.orgUnit e.eventDate e.dataValues
        freshUid now.toISO
    rw [hbuilder, filterMap_some_map]
  refine ⟨hmain, ?_⟩
  rw [hmain, List.map_map]
  symm
  rw [show (splitCommas (ep.adherenceString.getD "")).reverse =
      (toAdhEvents (some ep.batteryLevel) (some ep.deviceStatus)
        (buildEpisodeAdherencesGo ep.episodeStartDate ep.lastSeen
          (splitCommas (ep.adherenceString.getD "")).length
          (splitCommas (ep.adherenceString.getD "")) 0)).map
        AdhEvent.adherence from by
    rw [toAdhEvents_map_adherence, buildEpisodeAdherencesGo_map_adherence]]
  rw [List.takeWhile_map, List.map_map]
  symm
  apply List.map_congr_left
  intro e hemem
  show lookupDV DEVICE_SIGNAL_DATA_ELEMENT e.dataValues =
    some (sanitizeAdherenceCode e.adherence)
  have hmem' : e ∈ toAdhEvents (some ep.batteryLevel) (some ep.deviceStatus)
      (buildEpisodeAdherencesGo ep.episodeStartDate ep.lastSeen
        (splitCommas (ep.adherenceString.getD "")).length
        (splitCommas (ep.adherenceString.getD "")) 0) :=
    List.takeWhile_subset _ hemem
  rw [toAdhEvents_dataValues _ _ _ _ hmem']
  exact lookupDV_generateDataValues_sig ⟨e.eventDate, e.adherence⟩ _ _

def c3Episode : Episode :=
  ⟨some "ep3", "imei3", some "1,0,2,1", some "2024-03-01",
    some "2024-03-04 09:30:00", "85", "2"⟩

def c3Tei : TrackedEntityInstance := ⟨"imei3", "te3", "en3", "ou3", []⟩

theorem claim_C3_trailing_run_witness :
    (generateEventPayloadForInstance "p" "ps" [c3Episode] [("te3", "ep3")]
        none none ⟨⟨2024, 3, 4⟩, 36000⟩ "u3" c3Tei).map
        (fun p => lookupDV DEVICE_SIGNAL_DATA_ELEMENT p.dataValues) =
      ((splitCommas (c3Episode.adherenceString.getD "")).reverse.takeWhile
          (fun c => c ≠ "0")).map (fun c => some (sanitizeAdherenceCode c)) ∧
    (splitCommas (c3Episode.adherenceString.getD "")).reverse.takeWhile
        (fun c => c ≠ "0") = ["1", "2"] :=
  ⟨(claim_C3_trailing_run "p" "ps" [c3Episode] [("te3", "ep3")] none none
      ⟨⟨2024, 3, 4⟩, 36000⟩ "u3" c3Tei c3Episode (by decide) (by decide) rfl
      rfl (by decide) rfl).2, by decide⟩

/-! ### C4: the window-path expansion -/

/-- C4 counterexample: for a 5-character sequence anchored at 2024-01-01 the
expansion's dates run *backwards* from the anchor (2024-01-01 down to
2023-12-28, paired with the reversed sequence), not forwards 2024-01-01 ..
2024-01-05 as claimed. -/
theorem claim_C4_counterexample :
    ((getSanitizedAdherence ["1", "1", "1", "1", "1"] "2024-01-01").1.map
        AdherenceMapping.date) =
      ["2024-01-01T00:00:00", "2023-12-31T00:00:00", "2023-12-30T00:00:00",
        "2023-12-29T00:00:00", "2023-12-28T00:00:00"] ∧
      ((getSanitizedAdherence ["1", "1", "1", "1", "1"] "2024-01-01").1.map
          AdherenceMapping.date) ≠
        ["2024-01-01T00:00:00", "2024-01-02T00:00:00", "2024-01-03T00:00:00",
          "2024-01-04T00:00:00", "2024-01-05T00:00:00"] := by
  decide

/-- C4 (amended): the window-path expansion produces one `(date, code)` pair
per character, pairing the *reversed* sequence with dates *decrementing* one
calendar day per entry from the `episodeStartDate` anchor, and the reconciler
turns into payloads exactly the pairs whose date lies within
`[startDate, endDate]` inclusive (start defaulting to 2000-01-01, end to
now). -/
theorem claim_C4_window_expansion (program programStage : String)
    (episodes : List Episode) (mapping : List (String × String))
    (startDate endDate : Option String) (now : DT) (freshUid : String)
    (tei : TrackedEntityInstance) (ep : Episode) (t : DT)
    (hid : truthy ((mapping.find? fun pr =>
      pr.1 = tei.trackedEntity).map Prod.snd) = true)
    (hep : (episodes.find? fun e => e.id =
      ((mapping.find? fun pr => pr.1 = tei.trackedEntity).map Prod.snd)) =
      some ep)
    (hw : truthy startDate = true ∨ truthy endDate = true)
    (hanchor : fromSQL (ep.episodeStartDate.getD "") = some t) :
    ((getSanitizedAdherence (splitCommas (ep.adherenceString.getD ""))
        (ep.episodeStartDate.getD "")).1.map AdherenceMapping.adherence) =
      (splitCommas (ep.adherenceString.getD "")).reverse ∧
    ((getSanitizedAdherence (splitCommas (ep.adherenceString.getD ""))
        (ep.episodeStartDate.getD "")).1.map AdherenceMapping.date) =
      rollbackDates (some t) 0 (splitCommas (ep.adherenceString.getD "")).length ∧
    generateEventPayloadForInstance program programStage episodes mapping
        startDate endDate now freshUid tei =
      (getSanitizedAdherence (splitCommas (ep.adherenceString.getD ""))
          (ep.episodeStartDate.getD "")).1.filterMap (fun m =>
        if optLe (if truthy startDate then fromISO (startDate.getD "")
              else fromISO "2000-01-01") (fromISO m.date) &&
            optLe (fromISO m.date)
              (if truthy endDate then fromISO (endDate.getD "")
                else some now) then
          getDHIS2EventPayload program programStage tei.trackedEntity
            tei.enrollment tei.orgUnit m.date tei.events
            (generateDataValuesFromAdherenceMapping m none none) freshUid
            now.toISO
        else none) := by
  refine ⟨?_, ?_, ?_⟩
  · show (getSanitizedAdherenceAux
        (fromSQL (ep.episodeStartDate.getD ""))
        (splitCommas (ep.adherenceString.getD "")).reverse 0).map
        AdherenceMapping.adherence =
      (splitCommas (ep.adherenceString.getD "")).reverse
    rw [getSanitizedAdherenceAux_map_adherence]
  · show (getSanitizedAdherenceAux
        (fromSQL (ep.episodeStartDate.getD ""))
        (splitCommas (ep.adherenceString.getD "")).reverse 0).map
        AdherenceMapping.date =
      rollbackDates (some t) 0 (splitCommas (ep.adherenceString.getD "")).length
    rw [getSanitizedAdherenceAux_map_date, hanchor, List.length_reverse]
  · unfold generateEventPayloadForInstance
    dsimp only
    rw [if_neg (fun hcon => (hcon hid).elim)]
    rw [hep]
    dsimp only
    rw [if_neg (by
      intro hcon
      rcases hw with h | h
      · exact hcon.1 h
      · exact hcon.2.1 h)]
    rw [if_pos (by
      rcases hw with h | h
      · exact Or.inl h
      · exact Or.inr h)]

def c4Episode : Episode :=
  ⟨some "ep4", "imei4", some "1,1,1,1,1", some "2024-01-01",
    some "2024-01-05 08:00:00", "", ""⟩

def c4Tei : TrackedEntityInstance := ⟨"imei4", "te4", "en4", "ou4", []⟩

theorem claim_C4_window_expansion_witness :
    ((getSanitizedAdherence (splitCommas (c4Episode.adherenceString.getD ""))
        (c4Episode.episodeStartDate.getD "")).1.map AdherenceMapping.adherence) =
      (splitCommas (c4Episode.adherenceString.getD "")).reverse ∧
    ((getSanitizedAdherence (splitCommas (c4Episode.adherenceString.getD ""))
        (c4Episode.episodeStartDate.getD "")).1.map AdherenceMapping.date) =
      rollbackDates (some ⟨⟨2024, 1, 1⟩, 0⟩) 0
        (splitCommas (c4Episode.adherenceString.getD "")).length :=
  ⟨(claim_C4_window_expansion "p" "ps" [c4Episode] [("te4", "ep4")]
      (some "2023-12-30") none ⟨⟨2024, 1, 6⟩, 0⟩ "u4" c4Tei c4Episode
      ⟨⟨2024, 1, 1⟩, 0⟩ (by decide) (by decide) (by decide) (by decide)).1,
    (claim_C4_window_expansion "p" "ps" [c4Episode] [("te4", "ep4")]
      (some "2023-12-30") none ⟨⟨2024, 1, 6⟩, 0⟩ "u4" c4Tei c4Episode
      ⟨⟨2024, 1, 1⟩, 0⟩ (by decide) (by decide) (by decide) (by decide)).2.1⟩

/-! ## Event reconciler, V1 snapshot (`src/services/integration.service.ts`)

The earlier snapshot of the integration service: events are matched on
`eventDate`, the merge always emits, and — decisive for C2 — the no-window
path only emits when the episode's `lastSeen` is within one day of "now". -/

/-- A remote DHIS2 event as the V1 reconciler reads it (`event`, `eventDate`,
`dataValues`). -/
structure REventV1 where
  event : Option String
  eventDate : String
  dataValues : List DHIS2DataValue
deriving DecidableEq, Repr

/-- The V1 event payload shape (`trackedEntityInstance`, `eventDate`). -/
structure DHIS2EventV1 where
  event : String
  dataValues : List DHIS2DataValue
  trackedEntityInstance : String
  orgUnit : String
  program : String
  programStage : String
  eventDate : String
  status : String
deriving DecidableEq, Repr

/-- A fetched Wisepill episode as V1's `getDevicesWisepillEpisodes` sanitizes
it (no episode id; the V1 battery level is a number — `none` here models a
falsy (zero or NaN) value, `some s` a truthy value rendered as `s`). -/
structure EpisodeV1 where
  imei : String
  adherenceString : Option String
  episodeStartDate : Option String
  lastSeen : Option String
  deviceStatus : String
  batteryLevel : Option String
deriving DecidableEq, Repr

structure TrackedEntityInstanceV1 where
  imei : String
  trackedEntityInstance : String
  orgUnit : String
  events : List REventV1
deriving DecidableEq, Repr

/-- Code-unit lexicographic string order (the comparison JavaScript's `<`
applies to the `lastSeen` sort keys). -/
def lexLe : List Char → List Char → Bool
  | [], _ => true
  | _ :: _, [] => false
  | a :: as, b :: bs =>
    if a.toNat < b.toNat then true
    else if b.toNat < a.toNat then false
    else lexLe as bs

def strLe (a b : String) : Bool := lexLe a.data b.data

/-- Stable ascending insertion used to model lodash `orderBy(…, ["asc"])`. -/
def insertAsc (key : EpisodeV1 → String) (e : EpisodeV1) :
    List EpisodeV1 → List EpisodeV1
  | [] => [e]
  | x :: xs =>
    if strLe (key x) (key e) then x :: insertAsc key e xs else e :: x :: xs

def orderByAsc (key : EpisodeV1 → String) (l : List EpisodeV1) :
    List EpisodeV1 :=
  l.foldl (fun acc e => insertAsc key e acc) []

/-- `getLatestEpisode`: order ascending by `lastSeen`, take the last. -/
def getLatestEpisode (episodes : List EpisodeV1) : Option EpisodeV1 :=
  (orderByAsc (fun e => e.lastSeen.getD "") episodes).getLast?

def findSameDayEventV1 (events : List REventV1) (sanitizedEventDate : String) :
    Option REventV1 :=
  if events.isEmpty then none
  else (events.filter fun e => isoToYMD e.eventDate = sanitizedEventDate).head?

/-- V1 `getDHIS2EventPayload`: always returns an event; on a same-day match it
merges the new device-signal value with all of the existing event's non-signal
values. -/
def getDHIS2EventPayloadV1 (program programStage trackedEntityInstance orgUnit
    eventDate : String) (events : List REventV1)
    (dataValues : List DHIS2DataValue) (freshUid : String) : DHIS2EventV1 :=
  let sanitizedEventDate := isoToYMD eventDate
  match findSameDayEventV1 events sanitizedEventDate with
  | none =>
    ⟨freshUid, dataValues, trackedEntityInstance, orgUnit, program,
      programStage, sanitizedEventDate, "COMPLETED"⟩
  | some existingEvent =>
    ⟨existingEvent.event.getD freshUid,
      (dataValues.filter fun dv =>
        dv.dataElement = DEVICE_SIGNAL_DATA_ELEMENT) ++
      (existingEvent.dataValues.filter fun dv =>
        dv.dataElement ≠ DEVICE_SIGNAL_DATA_ELEMENT),
      trackedEntityInstance, orgUnit, program, programStage,
      sanitizedEventDate, "COMPLETED"⟩

/-- `now.diff(lastSeenDate, ["days"]).toObject().days ?? 0 < 1`: fractional
day difference below one; an invalid `lastSeen` leaves `days` undefined, so
`?? 0` makes the check pass. -/
def nowDiffDaysLt1 (now : DT) (lastSeenDate : Option DT) : Bool :=
  match lastSeenDate with
  | some t => now.instSecs - t.instSecs < 86400
  | none => true

/-- The body of V1 `generateEventPayload`'s per-tracked-entity loop
(`src/services/integration.service.ts` lines 250–342). -/
def generateEventPayloadForInstanceV1 (program programStage : String)
    (episodes : List EpisodeV1) (startDate endDate : Option String) (now : DT)
    (freshUid : String) (tei : TrackedEntityInstanceV1) : List DHIS2EventV1 :=
  let teiEpisodes := episodes.filter fun e => e.imei = tei.imei
  if teiEpisodes.isEmpty then []
  else
    match getLatestEpisode teiEpisodes with
    | none => []
    | some cumulativeEpisode =>
      let adherence := splitCommas (cumulativeEpisode.adherenceString.getD "")
      if ¬ truthy startDate ∧ ¬ truthy endDate then
        if nowDiffDaysLt1 now (fromSQL (cumulativeEpisode.lastSeen.getD "")) then
          let episodeAdherence : AdherenceMapping :=
            ⟨cumulativeEpisode.lastSeen.getD "", adherence.getLast?.getD "0"⟩
          let dataValues := generateDataValuesFromAdherenceMapping
            episodeAdherence cumulativeEpisode.batteryLevel
            (some cumulativeEpisode.deviceStatus)
          [getDHIS2EventPayloadV1 program programStage
            tei.trackedEntityInstance tei.orgUnit
            (cumulativeEpisode.lastSeen.getD "") tei.events dataValues freshUid]
        else []
      else
        let episodeAdherence := (getSanitizedAdherence adherence
          (cumulativeEpisode.lastSeen.getD "")).1
        let evaluationStartDate :=
          if truthy startDate then fromISO (startDate.getD "")
          else fromISO "1970-01-01"
        let evaluationEndDate :=
          if truthy endDate then fromISO (endDate.getD "") else some now
        episodeAdherence.filterMap fun m =>
          if optLe evaluationStartDate (fromISO m.date) &&
              optLe (fromISO m.date) evaluationEndDate then
            some (getDHIS2EventPayloadV1 program programStage
              tei.trackedEntityInstance tei.orgUnit m.date tei.events
              (generateDataValuesFromAdherenceMapping m none none) freshUid)
          else none

/-- V1 `generateEventPayload` over all tracked entity instances. -/
def generateEventPayloadV1 (program programStage : String)
    (episodes : List EpisodeV1) (startDate endDate : Option String) (now : DT)
    (freshUid : String) (teis : List TrackedEntityInstanceV1) :
    List DHIS2EventV1 :=
  (teis.map (generateEventPayloadForInstanceV1 program programStage episodes
    startDate endDate now freshUid)).flatten

/-- C2 (amended): in the `src/services/integration.service.ts` snapshot the
claim holds — with no evaluation window, an entity whose matched episode was
last seen more than one day before "now" contributes zero event payloads (the
staleness is logged and the entity skipped). -/
theorem claim_C2_stale_entity_skipped_v1 (program programStage : String)
    (episodes : List EpisodeV1) (startDate endDate : Option String) (now : DT)
    (freshUid : String) (tei : TrackedEntityInstanceV1) (ep : EpisodeV1)
    (t : DT)
    (hs : truthy startDate = false) (he : truthy endDate = false)
    (hlatest : getLatestEpisode (episodes.filter fun e => e.imei = tei.imei) =
      some ep)
    (hparse : fromSQL (ep.lastSeen.getD "") = some t)
    (hstale : now.instSecs - t.instSecs > 86400) :
    generateEventPayloadForInstanceV1 program programStage episodes startDate
      endDate now freshUid tei = [] := by
  unfold generateEventPayloadForInstanceV1
  dsimp only
  by_cases hempty : (episodes.filter fun e => e.imei = tei.imei).isEmpty = true
  · rw [if_pos hempty]
  · rw [if_neg hempty]
    rw [hlatest]
    dsimp only
    rw [if_pos ⟨by simp [hs], by simp [he]⟩]
    rw [if_neg (by
      rw [hparse]
      unfold nowDiffDaysLt1
      simp only [decide_eq_true_eq]
      omega)]

def c2v1Episode : EpisodeV1 :=
  ⟨"imei1", some "1,1", some "2024-03-01", some "2024-03-01 10:00:00", "", none⟩

def c2v1Tei : TrackedEntityInstanceV1 := ⟨"imei1", "te1", "ou1", []⟩

theorem claim_C2_stale_entity_skipped_v1_witness :
    truthy (none : Option String) = false ∧
      getLatestEpisode ([c2v1Episode].filter fun e => e.imei = c2v1Tei.imei) =
        some c2v1Episode ∧
      fromSQL (c2v1Episode.lastSeen.getD "") = some ⟨⟨2024, 3, 1⟩, 36000⟩ ∧
      (DT.instSecs ⟨⟨2024, 3, 5⟩, 0⟩ -
        DT.instSecs ⟨⟨2024, 3, 1⟩, 36000⟩) > 86400 ∧
      generateEventPayloadForInstanceV1 "p" "ps" [c2v1Episode] none none
        ⟨⟨2024, 3, 5⟩, 0⟩ "u1" c2v1Tei = [] :=
  ⟨rfl, by decide, by decide, by decide,
    claim_C2_stale_entity_skipped_v1 "p" "ps" [c2v1Episode] none none
      ⟨⟨2024, 3, 5⟩, 0⟩ "u1" c2v1Tei c2v1Episode ⟨⟨2024, 3, 1⟩, 36000⟩ rfl rfl
      (by decide) (by decide) (by decide)⟩

/-! ## Episode fetcher (`getWisepillEpisodeValues`, helpers lines 228–294)

Outbound calls are modelled by oracle functions returning `Except`: a
rejecting `await` with no surrounding `try`/`catch` propagates, which in the
`Except` monad is an error result.  `chunk` is lodash's fixed-size grouping. -/

/-- lodash `chunk` (for positive group size); the fuel argument is the list
length, consumed at least one element per step. -/
def chunkListAux {α : Type} (n : Nat) : Nat → List α → List (List α)
  | 0, _ => []
  | _, [] => []
  | fuel + 1, x :: xs => (x :: xs).take n :: chunkListAux n fuel ((x :: xs).drop n)

def chunkList {α : Type} (n : Nat) (l : List α) : List (List α) :=
  chunkListAux n l.length l

deriving instance DecidableEq for Except

/-- A raw episode record from `episodes/getEpisodes`. -/
structure EpisodeRecord where
  episode_id : Option String
  device_imei : Option String
  adherence_string : Option String
  last_battery_level : Option String
  episode_start_date : Option String
  last_seen : Option String
deriving DecidableEq, Repr

/-- A raw device record from `devices/getDeviceDetail`. -/
structure DeviceRecord where
  device_imei : Option String
  device_status : Option String
deriving DecidableEq, Repr

/-- A `{records, ResultCode}` envelope from the device registry. -/
structure EpisodesResp where
  records : List EpisodeRecord
  resultCode : Int
deriving DecidableEq, Repr

structure DevicesResp where
  records : List DeviceRecord
  resultCode : Int
deriving DecidableEq, Repr

/-- The per-batch sanitization loop: join each episode to its device record by
IMEI and keep episodes with a truthy IMEI. -/
def sanitizeEpisodeRecords (episodes : List EpisodeRecord)
    (devices : List DeviceRecord) : List Episode :=
  episodes.filterMap fun r =>
    let deviceDetails := devices.find? fun d => d.device_imei = r.device_imei
    let deviceStatus := deviceDetails.bind DeviceRecord.device_status
    if truthy r.device_imei then
      some ⟨r.episode_id, r.device_imei.getD "", r.adherence_string,
        r.episode_start_date, r.last_seen, getDeviceStatus deviceStatus,
        getDeviceBatteryLevel r.last_battery_level⟩
    else none

/-- The batch loop of `getWisepillEpisodeValues`: two sequential awaited
fetches per batch, neither wrapped in `try`/`catch`. -/
def getWisepillEpisodeValuesLoop
    (fetchEpisodes : List String → Except Unit EpisodesResp)
    (fetchDevices : List (Option String) → Except Unit DevicesResp) :
    List (List String) → List Episode → Except Unit (List Episode)
  | [], sanitizedEpisodes => Except.ok sanitizedEpisodes
  | ids :: rest, sanitizedEpisodes =>
    match fetchEpisodes ids with
    | Except.error e => Except.error e
    | Except.ok epResp =>
      match fetchDevices (epResp.records.map EpisodeRecord.device_imei) with
      | Except.error e => Except.error e
      | Except.ok devResp =>
        getWisepillEpisodeValuesLoop fetchEpisodes fetchDevices rest
          (sanitizedEpisodes ++ sanitizeEpisodeRecords epResp.records
            devResp.records)

/-- `getWisepillEpisodeValues(episodeIds)` with the registry modelled by the
two fetch oracles; batches of 100 episode ids. -/
def getWisepillEpisodeValues
    (fetchEpisodes : List String → Except Unit EpisodesResp)
    (fetchDevices : List (Option String) → Except Unit DevicesResp)
    (episodeIds : List String) : Except Unit (List Episode) :=
  getWisepillEpisodeValuesLoop fetchEpisodes fetchDevices
    (chunkList 100 episodeIds) []

theorem getWisepillEpisodeValuesLoop_error
    (fetchEpisodes : List String → Except Unit EpisodesResp)
    (fetchDevices : List (Option String) → Except Unit DevicesResp)
    (chunks : List (List String)) (acc : List Episode)
    (h : ∃ c ∈ chunks, fetchEpisodes c = Except.error ()) :
    getWisepillEpisodeValuesLoop fetchEpisodes fetchDevices chunks acc =
      Except.error () := by
  induction chunks generalizing acc with
  | nil => simp at h
  | cons c rest ih =>
    obtain ⟨w, hw, hwe⟩ := h
    unfold getWisepillEpisodeValuesLoop
    cases hE : fetchEpisodes c with
    | error e => rfl
    | ok epResp =>
      dsimp only
      cases hD : fetchDevices (epResp.records.map EpisodeRecord.device_imei) with
      | error e => rfl
      | ok devResp =>
        dsimp only
        apply ih
        rcases List.mem_cons.mp hw with rfl | hmem
        · rw [hE] at hwe
          exact absurd hwe (by simp)
        · exact ⟨w, hmem, hwe⟩

/-- C7 (amended): a failed batch fetch is *not* caught: the whole episode
fetch rejects, returning no episodes at all — there is no per-batch
skip-and-continue in the Wisepill episode fetcher. -/
theorem claim_C7_batch_failure_aborts
    (fetchEpisodes : List String → Except Unit EpisodesResp)
    (fetchDevices : List (Option String) → Except Unit DevicesResp)
    (episodeIds : List String)
    (h : ∃ c ∈ chunkList 100 episodeIds, fetchEpisodes c = Except.error ()) :
    getWisepillEpisodeValues fetchEpisodes fetchDevices episodeIds =
      Except.error () :=
  getWisepillEpisodeValuesLoop_error fetchEpisodes fetchDevices _ _ h

/-- C7 counterexample oracles: 101 episode ids chunk into two batches; the
first batch succeeds with one episode, the second batch's fetch rejects. -/
def c7Ids : List String := List.replicate 100 "a" ++ ["b"]

def c7Record : EpisodeRecord :=
  ⟨some "e1", some "imei7", some "1,1", some "50", some "2024-03-01",
    some "2024-03-01 10:00:00"⟩

def c7FetchEpisodes (ids : List String) : Except Unit EpisodesResp :=
  if ids.contains "b" then Except.error () else Except.ok ⟨[c7Record], 0⟩

def c7FetchDevices (_ : List (Option String)) : Except Unit DevicesResp :=
  Except.ok ⟨[⟨some "imei7", some "1"⟩], 0⟩

/-- C7 counterexample: one batch of two fails; instead of logging, skipping
that batch and returning the first batch's episode, the fetch returns an
error carrying no episodes at all. -/
theorem claim_C7_counterexample :
    chunkList 100 c7Ids = [List.replicate 100 "a", ["b"]] ∧
      c7FetchEpisodes (List.replicate 100 "a") = Except.ok ⟨[c7Record], 0⟩ ∧
      c7FetchEpisodes ["b"] = Except.error () ∧
      getWisepillEpisodeValues c7FetchEpisodes c7FetchDevices c7Ids =
        Except.error () := by
  decide

theorem claim_C7_batch_failure_aborts_witness :
    (∃ c ∈ chunkList 100 c7Ids, c7FetchEpisodes c = Except.error ()) ∧
      getWisepillEpisodeValues c7FetchEpisodes c7FetchDevices c7Ids =
        Except.error () :=
  ⟨by decide,
    claim_C7_batch_failure_aborts c7FetchEpisodes c7FetchDevices c7Ids
      (by decide)⟩

/-! ## Assignment orchestrator (`POST /devices/assign`)

Two snapshots: `unnamed/part_006` (V2, with a `force` flag and per-status
branching) and `src/routes/wise-pill-api.routes.ts` (V1, no `force` flag).
Outbound registry calls that mutate state are recorded as a transcript; the
lookup calls (find device, patient details, active-episode query) are
read-only and appear as oracle inputs. -/

inductive RegistryMutation where
  | closeEpisode (episodeId : String)
  | unassignDevice
  | unassignEpisode (episodeId : String)
  | createEpisode (patientId : String)
  | assignDevice (episodeId imei : String)
  | setTimezone
  | enrollmentSignal (patientId : String)
deriving DecidableEq, Repr

/-- The patient lookup result of `getPatientDetailsFromDHIS2` (read-only
DHIS2 queries); `none` models the `null` return. -/
structure PatientDetails where
  program : String
  programStage : String
  trackedEntity : Option String
  enrollment : String
  orgUnit : String
  episodeId : Option String
deriving DecidableEq, Repr

/-- Registry responses consumed by the V2 assignment flow. -/
structure AssignOracle where
  createdEpisodeId : Option String
  assignResultCode : Int
deriving DecidableEq, Repr

/-- `assignEpisodeToDevice` (services V2, lines 264–331): optional unassign of
the episode's previous device linkage, the assign call, then on success the
enrollment-signal event and the timezone call. -/
def assignEpisodeToDeviceV2 (episodeId imei patientId : String)
    (clearEpisodeLinkages : Bool) (assignResultCode : Int) :
    Nat × List RegistryMutation :=
  let pre := if clearEpisodeLinkages then
    [RegistryMutation.unassignEpisode episodeId] else []
  if assignResultCode = 0 then
    (200, pre ++ [RegistryMutation.assignDevice episodeId imei,
      RegistryMutation.enrollmentSignal patientId, RegistryMutation.setTimezone])
  else
    (409, pre ++ [RegistryMutation.assignDevice episodeId imei])

/-- The V2 `POST /devices/assign` handler (`unnamed/part_006` lines 450–581):
returns the HTTP status sent (or `none` for the fall-through `return;` with no
response) and the transcript of registry mutations.  A thrown destructuring
error is caught by the handler's `try`/`catch` and becomes a 500. -/
def devicesAssignHandlerV2 (imei patientId : String) (force : Bool)
    (findResultCode : Int) (deviceRecords : List (Option String))
    (patient : Option PatientDetails) (oracle : AssignOracle) :
    Option Nat × List RegistryMutation :=
  if findResultCode = 0 then
    match deviceRecords with
    | [] => (some 500, [])
    | device_status :: _ =>
      let deviceStatus := parseIntOpt (device_status.getD "")
      match patient with
      | none => (some 500, [])
      | some pd =>
        let episodeIdAlreadyExisted := truthy pd.episodeId
        if ¬ truthy pd.trackedEntity then (some 404, [])
        else if deviceStatus = some 2 then
          if ¬ truthy pd.episodeId then
            match oracle.createdEpisodeId with
            | none => (some 409, [RegistryMutation.createEpisode patientId])
            | some createdId =>
              let (statusCode, muts) := assignEpisodeToDeviceV2 createdId imei
                patientId episodeIdAlreadyExisted oracle.assignResultCode
              (some statusCode, RegistryMutation.createEpisode patientId :: muts)
          else
            let (statusCode, muts) := assignEpisodeToDeviceV2
              (pd.episodeId.getD "") imei patientId episodeIdAlreadyExisted
              oracle.assignResultCode
            (some statusCode, muts)
        else if deviceStatus = some 1 then
          if ¬ force then (some 409, [])
          else if ¬ truthy pd.episodeId then
            match oracle.createdEpisodeId with
            | none => (some 409, [RegistryMutation.unassignDevice,
                RegistryMutation.createEpisode patientId])
            | some createdId =>
              let (statusCode, muts) := assignEpisodeToDeviceV2 createdId imei
                patientId episodeIdAlreadyExisted oracle.assignResultCode
              (some statusCode, RegistryMutation.unassignDevice ::
                RegistryMutation.createEpisode patientId :: muts)
          else
            let (statusCode, muts) := assignEpisodeToDeviceV2
              (pd.episodeId.getD "") imei patientId episodeIdAlreadyExisted
              oracle.assignResultCode
            (some statusCode, RegistryMutation.unassignDevice :: muts)
        else if deviceStatus = some 3 then (some 409, [])
        else if deviceStatus = some 9 then (some 409, [])
        else (none, [])
  else (some 404, [])

/-- `closePreviousLinkedEpisodes` (helpers, lines 203–226): a read of the
active episodes, then a close call for the head episode when one exists.  On
a successful empty `records` the `head(episodeRecords)` destructuring throws
(`Except.error`). -/
def closePreviousLinkedEpisodes (closeStatus : Nat) (closeResultCode : Int)
    (closeRecords : List (Option String)) :
    Except Unit (List RegistryMutation) :=
  if closeStatus = 200 then
    if closeResultCode = 0 then
      match closeRecords with
      | [] => Except.error ()
      | episode_id :: _ =>
        if truthy episode_id then
          Except.ok [RegistryMutation.closeEpisode (episode_id.getD "")]
        else Except.ok []
    else Except.ok []
  else Except.ok []

/-- JavaScript loose equality `value == n` between a possibly-undefined
string and a number, for the plain decimal numerals the registry sends. -/
def jsLooseEqNum (v : Option String) (n : Int) : Bool :=
  match v with
  | none => false
  | some s => parseIntOpt s = some n

/-- The V1 `POST /devices/assign` handler
(`src/routes/wise-pill-api.routes.ts` lines 409–484): no `force` flag; every
found device has its previous episodes closed, a Linked device is
unconditionally unassigned, and an episode is always created and assigned.
The route has no `try`/`catch`, so a thrown destructuring error escapes
(`Except.error`: no response at all). -/
def devicesAssignHandlerV1 (imei patientId : String) (findResultCode : Int)
    (deviceRecords : List (Option String)) (closeStatus : Nat)
    (closeResultCode : Int) (closeRecords : List (Option String))
    (createResultCode : Int) (createdEpisodeId : Option String)
    (assignResultCode : Int) :
    Except Unit (Option Nat × List RegistryMutation) :=
  if findResultCode = 0 then
    match closePreviousLinkedEpisodes closeStatus closeResultCode closeRecords with
    | Except.error e => Except.error e
    | Except.ok closeMuts =>
      match deviceRecords with
      | [] => Except.error ()
      | device_status :: _ =>
        let muts1 := closeMuts ++
          (if jsLooseEqNum device_status 1 then [RegistryMutation.unassignDevice]
            else [])
        let muts2 := muts1 ++ [RegistryMutation.createEpisode patientId]
        if createResultCode = 0 ∧ truthy createdEpisodeId then
          let muts3 := muts2 ++
            [RegistryMutation.assignDevice (createdEpisodeId.getD "") imei]
          if assignResultCode = 0 then
            Except.ok (some 201, muts3 ++ [RegistryMutation.setTimezone,
              RegistryMutation.enrollmentSignal patientId])
          else Except.ok (some 409, muts3)
        else Except.ok (some 409, muts2)
  else Except.ok (some 404, [])

/-- C6 (amended): in the `unnamed/part_006` snapshot the claim holds — a
found device whose status is Linked (1), with the patient resolved and no
`force` flag, yields a terminal 409 conflict with an empty mutation
transcript, whatever the registry oracles would answer. -/
theorem claim_C6_linked_no_force_conflict (imei patientId : String)
    (findResultCode : Int) (device_status : Option String)
    (rest : List (Option String)) (pd : PatientDetails) (oracle : AssignOracle)
    (hfound : findResultCode = 0)
    (hpatient : truthy pd.trackedEntity = true)
    (hlinked : parseIntOpt (device_status.getD "") = some 1) :
    devicesAssignHandlerV2 imei patientId false findResultCode
      (device_status :: rest) (some pd) oracle = (some 409, []) := by
  subst hfound
  unfold devicesAssignHandlerV2
  rw [if_pos rfl]
  dsimp only
  rw [if_neg (fun hcon => (hcon hpatient).elim)]
  rw [hlinked]
  rw [if_neg (by simp)]
  rw [if_pos rfl]
  rw [if_pos (by simp)]

/-- C6 counterexample: in the `src/routes` snapshot there is no `force`
parameter at all — for a found device with Linked status (and no active
episode to close), the handler unassigns the device and creates an episode
(two registry mutations) before ending in its 409, refuting "no registry
mutation calls". -/
theorem claim_C6_counterexample :
    devicesAssignHandlerV1 "imei9" "pat9" 0 [some "1"] 200 1 [] 1 none 0 =
      Except.ok (some 409, [RegistryMutation.unassignDevice,
        RegistryMutation.createEpisode "pat9"]) ∧
      ([RegistryMutation.unassignDevice, RegistryMutation.createEpisode "pat9"] :
        List RegistryMutation) ≠ [] := by
  decide

theorem claim_C6_linked_no_force_conflict_witness :
    truthy (some "te9" : Option String) = true ∧
      parseIntOpt ((some "1" : Option String).getD "") = some 1 ∧
      devicesAssignHandlerV2 "imei9" "pat9" false 0 [some "1"]
        (some ⟨"p", "ps", some "te9", "en9", "ou9", none⟩) ⟨none, 0⟩ =
        (some 409, []) :=
  ⟨by decide, by decide,
    claim_C6_linked_no_force_conflict "imei9" "pat9" 0 (some "1") []
      ⟨"p", "ps", some "te9", "en9", "ou9", none⟩ ⟨none, 0⟩ rfl (by decide)
      (by decide)⟩

end SmartPill
